import Mathlib

/-!
Vinted exercise backend: offers and accounts.

A shallow embedding of `src/routes/offer.js`, `src/functions/cloudinaryFunc.js` and
`src/routes/user.js`.

* Request values are JavaScript values (`JSVal`); the operators the handlers apply to them
  (`typeof`, truthiness, `isNaN`, `<`, `>`, `<=`, `.length`, `-`, `*`) follow ECMAScript.
  A number is `NaN`, an infinity or an exact rational: the rounding of IEEE doubles is not
  modelled. A string converts to a number by the grammar of numeric string literals
  (white space, sign, decimal digits with fraction and exponent, `Infinity`, and the
  hexadecimal, octal and binary integer forms).
* Calls to Cloudinary and to the Mongoose models are external operations: a handler is a
  program that, in a world giving the outcome of every call, returns its response together
  with the ordered list of the calls it issued.
-/

namespace Vinted

/-! ## JavaScript values -/

/-- A JavaScript number: `NaN`, a finite value (kept exact), or one of the infinities. -/
inductive JSNum where
  | nan
  | fin (q : ℚ)
  | posInf
  | negInf
  deriving DecidableEq, Repr

/-- A value read from `req.body` or `req.query`. An array or plain object is kept as
`object prim`, where `prim` is the string its conversion to a primitive yields. -/
inductive JSVal where
  | undefined
  | null
  | bool (b : Bool)
  | num (x : JSNum)
  | str (s : String)
  | object (prim : String)
  deriving DecidableEq, Repr

/-- The UTF-16 code units of one character (a surrogate pair outside the basic plane). -/
def charUnits (c : Char) : List Nat :=
  if c.toNat < 65536 then [c.toNat]
  else [55296 + (c.toNat - 65536) / 1024, 56320 + (c.toNat - 65536) % 1024]

/-- The UTF-16 code units of a string, which is what a JavaScript string is made of. -/
def utf16 (s : String) : List Nat :=
  s.data.flatMap charUnits

/-- The `.length` of a JavaScript string: its number of UTF-16 code units. -/
def jsLength (s : String) : Nat :=
  (utf16 s).length

/-- The `typeof` operator. -/
def typeOf : JSVal → String
  | .undefined => "undefined"
  | .null => "object"
  | .bool _ => "boolean"
  | .num _ => "number"
  | .str _ => "string"
  | .object _ => "object"

/-- ToBoolean: the values that pass `if (v)`. -/
def truthy : JSVal → Bool
  | .undefined => false
  | .null => false
  | .bool b => b
  | .num .nan => false
  | .num (.fin q) => q != 0
  | .num .posInf => true
  | .num .negInf => true
  | .str s => s != ""
  | .object _ => true

/-- White space and line terminators, which the string-to-number conversion and
`String.prototype.trim` strip. -/
def isTrimmed (c : Char) : Bool :=
  c.toNat == 9 || c.toNat == 10 || c.toNat == 11 || c.toNat == 12 || c.toNat == 13 ||
  c.toNat == 32 || c.toNat == 160 || c.toNat == 5760 ||
  (8192 ≤ c.toNat && c.toNat ≤ 8202) || c.toNat == 8232 || c.toNat == 8233 ||
  c.toNat == 8239 || c.toNat == 8287 || c.toNat == 12288 || c.toNat == 65279

/-- The method `trim()`, on the characters of a string. -/
def jsTrim (cs : List Char) : List Char :=
  ((cs.dropWhile isTrimmed).reverse.dropWhile isTrimmed).reverse

/-- A decimal digit. -/
def isDecimalDigit (c : Char) : Bool :=
  48 ≤ c.toNat && c.toNat ≤ 57

/-- The value of a digit in a radix up to 16. -/
def digitOf (c : Char) : Option Nat :=
  if 48 ≤ c.toNat && c.toNat ≤ 57 then some (c.toNat - 48)
  else if 97 ≤ c.toNat && c.toNat ≤ 102 then some (c.toNat - 87)
  else if 65 ≤ c.toNat && c.toNat ≤ 70 then some (c.toNat - 55)
  else none

/-- Value of a list of digits in a radix, `none` when a character is not such a digit. -/
def radixValue (radix : Nat) : List Char → Nat → Option Nat
  | [], acc => some acc
  | c :: cs, acc =>
    match digitOf c with
    | some d => if d < radix then radixValue radix cs (acc * radix + d) else none
    | none => none

/-- Value of a list of decimal digits, `none` when a character is not a digit. -/
def digitsValue (cs : List Char) (acc : Nat) : Option Nat :=
  radixValue 10 cs acc

/-- The product of two rationals, from their numerators and denominators. -/
def ratMul (a b : ℚ) : ℚ :=
  mkRat (a.num * b.num) (a.den * b.den)

/-- The difference of two rationals, from their numerators and denominators. -/
def ratSub (a b : ℚ) : ℚ :=
  mkRat (a.num * b.den - b.num * a.den) (a.den * b.den)

/-- The number `mantissa * 10 ^ exponent`. -/
def scaled (mantissa : Nat) (exponent : Int) : ℚ :=
  if 0 ≤ exponent then mkRat (Int.ofNat (mantissa * 10 ^ exponent.toNat)) 1
  else mkRat (Int.ofNat mantissa) (10 ^ (-exponent).toNat)

/-- The exponent part `e±digits` that may end a decimal literal; an absent part counts 0,
`none` is a malformed part. -/
def exponentPart : List Char → Option Int
  | [] => some 0
  | c :: rest =>
    if c == 'e' || c == 'E' then
      match rest with
      | [] => none
      | '+' :: [] => none
      | '-' :: [] => none
      | '+' :: d :: ds => (digitsValue (d :: ds) 0).map Int.ofNat
      | '-' :: d :: ds => (digitsValue (d :: ds) 0).map (fun n => -Int.ofNat n)
      | d :: ds => (digitsValue (d :: ds) 0).map Int.ofNat
    else none

/-- The digits after a decimal point, and what follows them. -/
def fractionPart (rest : List Char) : List Char × List Char :=
  match rest with
  | '.' :: r => r.span isDecimalDigit
  | _ => ([], rest)

/-- Reads an unsigned decimal literal: `Infinity`, or digits with an optional fraction and
an optional exponent (at least one digit before or after the point). -/
def unsignedValue (cs : List Char) : JSNum :=
  if cs == "Infinity".data then .posInf
  else
    let intDigits := (cs.span isDecimalDigit).1
    let fracDigits := (fractionPart (cs.span isDecimalDigit).2).1
    let rest := (fractionPart (cs.span isDecimalDigit).2).2
    if intDigits.isEmpty && fracDigits.isEmpty then .nan
    else
      match exponentPart rest, digitsValue (intDigits ++ fracDigits) 0 with
      | some e, some m => .fin (scaled m (e - Int.ofNat fracDigits.length))
      | _, _ => .nan

/-- Reads a hexadecimal, octal or binary integer literal (`0x`, `0o`, `0b`); `none` when
the text has no such prefix. -/
def nonDecimalValue (cs : List Char) : Option JSNum :=
  match cs with
  | '0' :: x :: ds =>
    let radix : Nat :=
      if x == 'x' || x == 'X' then 16
      else if x == 'o' || x == 'O' then 8
      else if x == 'b' || x == 'B' then 2
      else 0
    if radix == 0 then none
    else
      match ds with
      | [] => some .nan
      | _ :: _ =>
        match radixValue radix ds 0 with
        | some n => some (.fin (mkRat (Int.ofNat n) 1))
        | none => some .nan
  | _ => none

/-- Negation of a JavaScript number. -/
def JSNum.neg : JSNum → JSNum
  | .nan => .nan
  | .fin q => .fin (mkRat (-q.num) q.den)
  | .posInf => .negInf
  | .negInf => .posInf

/-- StringToNumber: the text without surrounding white space reads as 0 when empty, as a
signed decimal literal, or as an unsigned hexadecimal, octal or binary integer; anything
else is `NaN`. -/
def stringToNumber (s : String) : JSNum :=
  match jsTrim s.data with
  | [] => .fin 0
  | '-' :: rest => (unsignedValue rest).neg
  | '+' :: rest => unsignedValue rest
  | c :: rest =>
    match nonDecimalValue (c :: rest) with
    | some v => v
    | none => unsignedValue (c :: rest)

/-- ToNumber. -/
def toNumber : JSVal → JSNum
  | .undefined => .nan
  | .null => .fin 0
  | .bool b => .fin (if b then 1 else 0)
  | .num x => x
  | .str s => stringToNumber s
  | .object prim => stringToNumber prim

/-- The global `isNaN(v)`: `v` converted to a number is `NaN`. -/
def isNaN (v : JSVal) : Bool :=
  toNumber v == .nan

/-- Lexicographic order on code-unit sequences. -/
def unitsLt : List Nat → List Nat → Bool
  | _, [] => false
  | [], _ :: _ => true
  | a :: as, b :: bs => if a < b then true else if b < a then false else unitsLt as bs

/-- The comparison `a < b` of two numbers; `none` is the undefined result obtained when an
operand is `NaN`. -/
def JSNum.lt : JSNum → JSNum → Option Bool
  | .nan, _ => none
  | _, .nan => none
  | .fin a, .fin b => some (decide (a < b))
  | .negInf, .negInf => some false
  | .negInf, _ => some true
  | _, .negInf => some false
  | .posInf, _ => some false
  | .fin _, .posInf => some true

/-- The difference `a - b` of two numbers. -/
def JSNum.sub : JSNum → JSNum → JSNum
  | .nan, _ => .nan
  | _, .nan => .nan
  | .fin a, .fin b => .fin (ratSub a b)
  | .posInf, .posInf => .nan
  | .negInf, .negInf => .nan
  | .posInf, _ => .posInf
  | .negInf, _ => .negInf
  | .fin _, .posInf => .negInf
  | .fin _, .negInf => .posInf

/-- The sign of a finite number: 1, 0 or -1. -/
def signOf (q : ℚ) : Int :=
  if 0 < q.num then 1 else if q.num < 0 then -1 else 0

/-- An infinity of the given sign, `NaN` for the sign 0. -/
def infinityOf (sign : Int) : JSNum :=
  if 0 < sign then .posInf else if sign < 0 then .negInf else .nan

/-- The product `a * b` of two numbers. -/
def JSNum.mul : JSNum → JSNum → JSNum
  | .nan, _ => .nan
  | _, .nan => .nan
  | .fin a, .fin b => .fin (ratMul a b)
  | .fin a, .posInf => infinityOf (signOf a)
  | .fin a, .negInf => infinityOf (-signOf a)
  | .posInf, .fin b => infinityOf (signOf b)
  | .negInf, .fin b => infinityOf (-signOf b)
  | .posInf, .posInf => .posInf
  | .negInf, .negInf => .posInf
  | .posInf, .negInf => .negInf
  | .negInf, .posInf => .negInf

/-- Result of the abstract relational comparison `a < b`; `none` is the undefined result
obtained when an operand converts to `NaN`. Two strings are compared as strings. -/
def lessThan (a b : JSVal) : Option Bool :=
  match a, b with
  | .str s, .str t => some (unitsLt (utf16 s) (utf16 t))
  | .str s, .object t => some (unitsLt (utf16 s) (utf16 t))
  | .object s, .str t => some (unitsLt (utf16 s) (utf16 t))
  | .object s, .object t => some (unitsLt (utf16 s) (utf16 t))
  | _, _ => (toNumber a).lt (toNumber b)

/-- The operator `a < b`. -/
def jsLt (a b : JSVal) : Bool :=
  lessThan a b == some true

/-- The operator `a > b`. -/
def jsGt (a b : JSVal) : Bool :=
  lessThan b a == some true

/-- The operator `a <= b`. -/
def jsLe (a b : JSVal) : Bool :=
  lessThan b a == some false

/-- The operator `a - b`. -/
def jsSub (a b : JSVal) : JSNum :=
  (toNumber a).sub (toNumber b)

/-- The operator `a * b`. -/
def jsMul (a b : JSVal) : JSNum :=
  (toNumber a).mul (toNumber b)

/-- A request body or query: the keys that are present, with their values. -/
abbrev Fields := List (String × JSVal)

/-- Reading a key of an object: `undefined` when the key is absent. -/
def Fields.get (b : Fields) (key : String) : JSVal :=
  match b.lookup key with
  | some v => v
  | none => .undefined

/-- `v.length > bound` for a value already known to be a string (the test sits behind the
`typeof v !== "string"` disjunct of the same condition). -/
def lengthGt (v : JSVal) (bound : Nat) : Bool :=
  match v with
  | .str s => decide (jsLength s > bound)
  | _ => false

/-- `v.length <= bound`, evaluated behind `typeof v === "string" &&`. -/
def lengthLe (v : JSVal) (bound : Nat) : Bool :=
  match v with
  | .str s => decide (jsLength s ≤ bound)
  | _ => false

/-! ## Constants of `routes/offer.js` -/

def maxPriceOfferGlobal : ℚ := 100000
def maxPageNumber : ℚ := 1000
def titleMaxStrLength : Nat := 50
def descrMaxStrLength : Nat := 500
def offerFolderRootPath : String := "vinted/offers"

/-- The condition of lines 46-67 of `routes/offer.js`: the request is rejected when it holds. -/
def publishInvalid (body : Fields) : Bool :=
  let title := body.get "title"
  let description := body.get "description"
  let price := body.get "price"
  let condition := body.get "condition"
  let city := body.get "city"
  let brand := body.get "brand"
  let size := body.get "size"
  let color := body.get "color"
  title == .undefined ||
  typeOf title != "string" ||
  description == .undefined ||
  typeOf description != "string" ||
  price == .undefined ||
  isNaN price ||
  typeOf condition != "string" ||
  typeOf city != "string" ||
  typeOf brand != "string" ||
  typeOf color != "string" ||
  (typeOf size != "string" && isNaN size) ||
  lengthGt title titleMaxStrLength ||
  lengthGt description descrMaxStrLength ||
  jsGt price (.num (.fin maxPriceOfferGlobal)) ||
  lengthGt condition titleMaxStrLength ||
  lengthGt city titleMaxStrLength ||
  lengthGt brand titleMaxStrLength ||
  lengthGt color titleMaxStrLength ||
  (typeOf size == "string" && lengthGt size titleMaxStrLength) ||
  (typeOf size == "number" && jsGt size (.num (.fin maxPriceOfferGlobal)))

/-- The digits after the decimal point of `r / den`, by long division, at most `fuel` of
them. -/
def fractionDigits (den : Nat) : Nat → Nat → List Char
  | 0, _ => []
  | fuel + 1, r =>
    if r == 0 then []
    else Char.ofNat (48 + r * 10 / den) :: fractionDigits den fuel (r * 10 % den)

/-- Number::toString in radix 10 for the numbers written in plain decimal notation: an
integer prints its digits, a fraction its decimal expansion. -/
def numberToString : JSNum → String
  | .nan => "NaN"
  | .posInf => "Infinity"
  | .negInf => "-Infinity"
  | .fin q =>
    if q.den == 1 then toString q.num
    else
      (if q.num < 0 then "-" else "") ++ toString (q.num.natAbs / q.den) ++ "." ++
        String.mk (fractionDigits q.den 20 (q.num.natAbs % q.den))

/-- ToString, as applied by string concatenation and template literals. -/
def jsToString : JSVal → String
  | .undefined => "undefined"
  | .null => "null"
  | .bool b => if b then "true" else "false"
  | .num x => numberToString x
  | .str s => s
  | .object prim => prim

/-! ## Records, files and external operations -/

/-- A Mongoose document identifier (an `ObjectId` instance), with its 24-digit hex form. -/
structure ObjectId where
  hex : String
  deriving DecidableEq, Repr

/-- A file of `req.files`; `base64` stands for `file.data.toString("base64")`. -/
structure File where
  name : String
  mimetype : String
  base64 : String
  deriving DecidableEq, Repr

/-- The object Cloudinary answers for an uploaded or renamed asset. -/
structure Asset where
  public_id : String
  folder : String
  secure_url : String
  deriving DecidableEq, Repr

/-- A document of the `User` model. -/
structure User where
  username : String
  avatar : Option Asset
  email : String
  salt : String
  hash : String
  token : String
  deriving DecidableEq, Repr

/-- One element of `product_details`, such as `{ MARQUE: brand }`. -/
structure Detail where
  key : String
  value : JSVal
  deriving DecidableEq, Repr

/-- A document of the `Offer` model, with its owner populated. A slot of `product_details`
is `none` when the array has a hole there; `product_image` is `none` when it was set to
`undefined`. -/
structure Offer where
  _id : ObjectId
  product_name : JSVal
  product_description : JSVal
  product_price : JSVal
  product_details : List (Option Detail)
  product_image : Option Asset
  product_pictures : List (Option Asset)
  owner : User
  deriving DecidableEq, Repr

/-- The arguments of the `Offer.find(...).sort(...).skip(...).limit(...)` query. -/
structure Query where
  product_name : JSVal
  product_description : JSVal
  gte : JSVal
  lte : JSVal
  sort : String
  skip : JSNum
  limit : JSVal
  deriving DecidableEq, Repr

/-- A call to the asset store (Cloudinary) or to the record store (Mongoose). -/
inductive Op where
  | destroy (public_id : String)
  | upload (dataUri : String)
  | sub_folders (path : String)
  | create_folder (path : String)
  | rename (src dst : String)
  | delete_folder (path : String)
  | offerFindOne (id : String)
  | offerFind (q : Query)
  | offerSave (o : Offer)
  | offerPopulate (o : Offer)
  | offerDeleteOne (o : Offer)
  | userFindOne (email : JSVal)
  | userSave (u : User)
  deriving DecidableEq, Repr

/-- Whether an operation is addressed to the asset store. -/
def Op.isAssetOp : Op → Bool
  | .destroy _ => true
  | .upload _ => true
  | .sub_folders _ => true
  | .create_folder _ => true
  | .rename _ _ => true
  | .delete_folder _ => true
  | _ => false

/-- The environment of a request: the outcome of every external call, which may depend on
the calls issued before it, the identifier `new Offer(...)` generates, the pattern check
of `new RegExp`, the digest `SHA256(...).toString(encBase64)`, and the random string
`uid2(length)` drawn for each length. -/
structure World where
  newObjectId : ObjectId
  regExpOk : String → Bool
  sha256Base64 : String → String
  uid2 : Nat → String
  destroy : List Op → String → Except String Unit
  upload : List Op → String → Except String Asset
  sub_folders : List Op → String → Except String (List String)
  create_folder : List Op → String → Except String Unit
  rename : List Op → String → String → Except String Asset
  delete_folder : List Op → String → Except String Unit
  offerFindOne : List Op → String → Except String (Option Offer)
  offerFind : List Op → Query → Except String (List Offer)
  offerSave : List Op → Offer → Except String Unit
  offerPopulate : List Op → Offer → Except String Unit
  offerDeleteOne : List Op → Offer → Except String Unit
  userFindOne : List Op → JSVal → Except String (Option User)
  userSave : List Op → User → Except String Unit

/-- The body sent with `res.status(...).json(...)`. -/
inductive ResBody where
  | message (text : String)
  | error (text : String)
  | offer (o : Offer)
  | offers (count : Nat) (list : List Offer)
  | session (token : String) (username : String)
  deriving DecidableEq, Repr

/-- An HTTP response. -/
structure Response where
  status : Nat
  body : ResBody
  deriving DecidableEq, Repr

/-! ## Programs with external calls -/

/-- An asynchronous function body: run in a world after the calls `tr`, it returns a value
or throws (the error message), and the calls issued so far. -/
def Prog (α : Type) : Type :=
  World → List Op → Except String α × List Op

namespace Prog

/-- Returning a value. -/
def ret {α : Type} (a : α) : Prog α :=
  fun _ tr => (.ok a, tr)

/-- Sequencing: an exception in the first part skips the second. -/
def andThen {α β : Type} (x : Prog α) (f : α → Prog β) : Prog β :=
  fun w tr =>
    match x w tr with
    | (.ok a, tr1) => f a w tr1
    | (.error e, tr1) => (.error e, tr1)

/-- Reading the environment; no call is issued. -/
def world : Prog World :=
  fun w tr => (.ok w, tr)

/-- A `throw`. -/
def raise {α : Type} (e : String) : Prog α :=
  fun _ tr => (.error e, tr)

/-- A `try { x } catch (error) { h error }` block. -/
def tryCatch {α : Type} (x : Prog α) (h : String → Prog α) : Prog α :=
  fun w tr =>
    match x w tr with
    | (.ok a, tr1) => (.ok a, tr1)
    | (.error e, tr1) => h e w tr1

/-- Issues one external call and awaits its outcome. -/
def call {α : Type} (op : Op) (outcome : World → List Op → Except String α) : Prog α :=
  fun w tr => (outcome w tr, tr ++ [op])

/-- Runs a promise to its settlement and hands back the outcome instead of throwing. -/
def settle {α : Type} (x : Prog α) : Prog (Except String α) :=
  fun w tr => (.ok (x w tr).1, (x w tr).2)

/-- Runs `f` on the elements in order, stopping at the first exception. -/
def mapSeq {α β : Type} (f : α → Prog β) : List α → Prog (List β)
  | [] => ret []
  | a :: as => andThen (f a) (fun b => andThen (mapSeq f as) (fun bs => ret (b :: bs)))

/-- The values of settled promises, or the first rejection. -/
def joinAll {α : Type} : List (Except String α) → Prog (List α)
  | [] => ret []
  | .ok a :: rs => andThen (joinAll rs) (fun as => ret (a :: as))
  | .error e :: _ => raise e

end Prog

instance : Monad Prog where
  pure := Prog.ret
  bind := Prog.andThen

/-- A route handler `async (req, res) => { try { ... } catch (error) { return
res.status(500).json({ message: error.message }) } }`: the response sent and the calls
issued while serving the request. -/
def handler (body : Prog Response) (w : World) : Response × List Op :=
  match body w [] with
  | (.ok response, tr) => (response, tr)
  | (.error e, tr) => (⟨500, .message e⟩, tr)

/-! ## `functions/cloudinaryFunc.js` -/

/-- The data URI built from a file. -/
def convertToBase64 (file : File) : String :=
  "data:" ++ file.mimetype ++ ";base64," ++ file.base64

/-- Whether `if (fileToDeleteID)` passes: the identifier is present and not empty. -/
def idTruthy : Option String → Bool
  | some s => s != ""
  | none => false

/-- The function `deleteCreateFiles(fileToUpload, fileToDeleteID)`. The `catch` block
refers to `res`, which is not in scope there, so any failure of the two calls leaves the
function by a `ReferenceError`. -/
def deleteCreateFiles (fileToUpload : Option File) (fileToDeleteID : Option String) :
    Prog (Option Asset) :=
  Prog.tryCatch
    (do
      match fileToDeleteID with
      | some id => if idTruthy (some id) then Prog.call (.destroy id) (fun w tr => w.destroy tr id)
                   else pure ()
      | none => pure ()
      match fileToUpload with
      | some file =>
        let result ← Prog.call (.upload (convertToBase64 file))
          (fun w tr => w.upload tr (convertToBase64 file))
        pure (some result)
      | none => pure none)
    (fun _ => Prog.raise "res is not defined")

/-- The test `folder.name === Id` of `createFolder`: the callers pass a document `_id`,
an `ObjectId` instance, and a string is never strictly equal to an object. -/
def folderNameIs (_name : String) (_Id : ObjectId) : Bool :=
  false

/-- The first step of `createFolder`: issues `cloudinary.api.sub_folders(folderRootPath)`
and hands back its outcome. -/
def subFoldersReply (folderRootPath : String) : Prog (Except String (List String)) :=
  Prog.settle (Prog.call (.sub_folders folderRootPath) (fun w tr => w.sub_folders tr folderRootPath))

/-- The second step of `createFolder`, once the folder list is settled: the folder is
created unless a listed folder has the name `Id`. The outcome is handed back: a failure
of this step or of the first one sends the function to its `catch` block. -/
def createFolderEnsure (Id : ObjectId) (folderRootPath : String)
    (reply : Except String (List String)) : Prog (Except String Unit) :=
  Prog.settle
    (do
      let folders ← (match reply with
        | .ok l => pure l
        | .error e => Prog.raise e : Prog (List String))
      let folderExist := folders.any (fun name => folderNameIs name Id)
      if !folderExist then
        Prog.call (.create_folder (folderRootPath ++ "/" ++ Id.hex))
          (fun w tr => w.create_folder tr (folderRootPath ++ "/" ++ Id.hex))
      else pure ())

/-- The last step of `createFolder`: the file is renamed and the answer returned. Any
failure, of this step or of an earlier one, is logged and the function returns
`undefined`. -/
def createFolderMove (Id : ObjectId) (filePublicId folderRootPath : String)
    (ensured : Except String Unit) : Prog (Option Asset) :=
  Prog.tryCatch
    (do
      match ensured with
      | .ok _ => pure ()
      | .error e => Prog.raise e
      let newFilePublicId := folderRootPath ++ "/" ++ Id.hex ++ "/" ++ filePublicId
      let result ← Prog.call (.rename filePublicId newFilePublicId)
        (fun w tr => w.rename tr filePublicId newFilePublicId)
      pure (some result))
    (fun _ => pure none)

/-- The rest of `createFolder`, once the folder list is settled. -/
def createFolderResume (Id : ObjectId) (filePublicId folderRootPath : String)
    (reply : Except String (List String)) : Prog (Option Asset) := do
  let ensured ← createFolderEnsure Id folderRootPath reply
  createFolderMove Id filePublicId folderRootPath ensured

/-- The function `createFolder(Id, filePublicId, folderRootPath)`. -/
def createFolder (Id : ObjectId) (filePublicId folderRootPath : String) : Prog (Option Asset) := do
  let reply ← subFoldersReply folderRootPath
  createFolderResume Id filePublicId folderRootPath reply

/-- The function `deleteFolder(folderPath)`. -/
def deleteFolder (folderPath : String) : Prog Unit :=
  Prog.call (.delete_folder folderPath) (fun w tr => w.delete_folder tr folderPath)

/-- Reading `.public_id` of an upload result: a `TypeError` when the result is `undefined`. -/
def publicIdOf : Option Asset → Prog String
  | some a => pure a.public_id
  | none => Prog.raise "Cannot read properties of undefined (reading \x27public_id\x27)"

/-- The fan-out `Promise.all(arrayPictures.map(p => deleteCreateFiles(p, id)))`: every
call of the map is started, then the results are awaited together. -/
def uploadAll (arrayPictures : List File) (fileToDeleteID : Option String) :
    Prog (List (Option Asset)) := do
  let settled ← Prog.mapSeq (fun p => Prog.settle (deleteCreateFiles (some p) fileToDeleteID))
    arrayPictures
  Prog.joinAll settled

/-- The fan-out `Promise.all(picturesToFile.map(p => createFolder(Id, p.public_id, root)))`:
the map starts every `createFolder`, each of which issues its `sub_folders` call at once;
the functions then resume as the replies come, taken here in the order in which the calls
were issued: every `create_folder` call, then every `rename` call. -/
def createFolderAll (Id : ObjectId) (picturesToFile : List (Option Asset))
    (folderRootPath : String) : Prog (List (Option Asset)) := do
  let started ← Prog.mapSeq
    (fun picture => do
      let pid ← publicIdOf picture
      let reply ← subFoldersReply folderRootPath
      pure (pid, reply))
    picturesToFile
  let ensured ← Prog.mapSeq
    (fun (pr : String × Except String (List String)) => do
      let outcome ← createFolderEnsure Id folderRootPath pr.2
      pure (pr.1, outcome))
    started
  Prog.mapSeq
    (fun (pr : String × Except String Unit) => createFolderMove Id pr.1 folderRootPath pr.2)
    ensured

/-! ## `routes/offer.js` -/

/-- The request files after `fileUpload()`: the keys `image` and `pictures` of `req.files`. -/
inductive Pictures where
  | one (file : File)
  | many (files : List File)
  deriving DecidableEq, Repr

/-- The object `req.files`. -/
structure Files where
  image : Option File
  pictures : Option Pictures
  deriving DecidableEq, Repr

/-- The property `req.files` of a request. -/
inductive ReqFiles where
  | undefined
  | null
  | files (f : Files)
  deriving DecidableEq, Repr

def msgMandatory : String :=
  "Please fill all the mandatory fields with the right type of parameters and respecting the text limitation."

def msgFields : String :=
  "Please fill fields with the right type of parameters and respecting the text limitation."

def msgNoChange : String :=
  "Please change at least one information from your offer before validate."

def msgValidId : String := "Please use a valid Id."

def msgNoOffer : String := "This offer doesn\x27t exist."

def msgUnauthorized : String := "Unauthorized to do this action."

/-- Lines 76-87: the defaults given to `condition`, `city`, `size` and `color`. -/
def orEmpty (v : JSVal) : JSVal :=
  if v == .undefined then .str "" else v

/-- Lines 88-94: the array `detailsBody`. -/
def detailsBody (body : Fields) : List (Option Detail) :=
  [ some ⟨"MARQUE", body.get "brand"⟩,
    some ⟨"TAILLE", orEmpty (body.get "size")⟩,
    some ⟨"ÉTAT", orEmpty (body.get "condition")⟩,
    some ⟨"COULEUR", orEmpty (body.get "color")⟩,
    some ⟨"EMPLACEMENT", orEmpty (body.get "city")⟩ ]

/-- Lines 122-160: the additional pictures of a new offer. A single descriptor assigned to
the array path `product_pictures` is stored as a one-element array. -/
def publishPictures (newOffer : Offer) (pictures : Option Pictures) : Prog Offer :=
  match pictures with
  | none => pure newOffer
  | some (.many arrayPictures) => do
    let picturesToFile ← uploadAll arrayPictures none
    let picturesToUpload ← createFolderAll newOffer._id picturesToFile offerFolderRootPath
    pure { newOffer with product_pictures := picturesToUpload }
  | some (.one picture) => do
    let fileUploaded ← deleteCreateFiles (some picture) none
    let pid ← publicIdOf fileUploaded
    let fileMoveToFolder ← createFolder newOffer._id pid offerFolderRootPath
    pure { newOffer with product_pictures := [fileMoveToFolder] }

/-- The handler of `POST /offer/publish`, after `isAuthenticated` has set `req.user` and
`middlewareFileCheck` has found `req.files`. -/
def publish (user : User) (body : Fields) (files : Files) : World → Response × List Op :=
  handler
    (if publishInvalid body then
      pure ⟨400, .message msgMandatory⟩
    else do
      let fileUploaded ← deleteCreateFiles files.image none
      let w ← Prog.world
      let newOffer : Offer :=
        { _id := w.newObjectId
          product_name := body.get "title"
          product_description := body.get "description"
          product_price := body.get "price"
          product_details := detailsBody body
          product_image := fileUploaded
          product_pictures := []
          owner := user }
      let pid ← publicIdOf newOffer.product_image
      let filMoveToFolder ← createFolder newOffer._id pid offerFolderRootPath
      let newOffer := { newOffer with product_image := filMoveToFolder }
      let newOffer ← publishPictures newOffer files.pictures
      Prog.call (.offerSave newOffer) (fun w tr => w.offerSave tr newOffer)
      Prog.call (.offerPopulate newOffer) (fun w tr => w.offerPopulate tr newOffer)
      pure ⟨200, .offer newOffer⟩)

/-- The function `middlewareFileCheck`: `none` stands for `next()`. -/
def middlewareFileCheck (files : ReqFiles) : Option Response :=
  match files with
  | .files _ => none
  | _ => some ⟨400, .message "Please upload a picture of your item."⟩

/-- The source of the pattern `new RegExp(v, "i")`. -/
def patternSource (v : JSVal) : String :=
  if v == .undefined then "(?:)" else jsToString v

/-- Lines 183-196: the price range of the search, defaults and swap included. -/
def priceRange (priceMin priceMax : JSVal) : JSVal × JSVal :=
  let priceMin :=
    if !truthy priceMin || jsLt priceMin (.num (.fin 0)) ||
        jsGt priceMin (.num (.fin maxPriceOfferGlobal)) then JSVal.num (.fin 0) else priceMin
  let priceMax :=
    if !truthy priceMax || jsGt priceMax (.num (.fin maxPriceOfferGlobal)) ||
        jsLt priceMax (.num (.fin 0)) then JSVal.num (.fin maxPriceOfferGlobal) else priceMax
  if jsGt priceMin priceMax then (priceMax, priceMin) else (priceMin, priceMax)

/-- The handler of `GET /offers`. -/
def getOffers (query : Fields) : World → Response × List Op :=
  handler
    (let title := query.get "title"
     let description := query.get "description"
     let sort := query.get "sort"
     let page := query.get "page"
     let limit := query.get "limit"
     let skipFinalValue := jsMul (.num (jsSub page (.num (.fin 1)))) limit
     let range := priceRange (query.get "priceMin") (query.get "priceMax")
     let page := if !truthy page || jsGt page (.num (.fin maxPageNumber))
       then JSVal.num (.fin 1) else page
     let sortFinalValue :=
       if truthy sort && (sort == .str "price-desc" || sort == .str "price-asc") then
         (if sort == .str "price-desc" then "desc" else "asc")
       else "desc"
     if (truthy title && typeOf title != "string") ||
        (truthy description && typeOf description != "string") ||
        isNaN range.1 || isNaN range.2 || isNaN page then
       pure ⟨400, .message "Please use the right type of query."⟩
     else do
       let w ← Prog.world
       if !(w.regExpOk (patternSource title) && w.regExpOk (patternSource description)) then
         Prog.raise "Invalid regular expression"
       else do
         let q : Query :=
           { product_name := title
             product_description := description
             gte := range.1
             lte := range.2
             sort := sortFinalValue
             skip := skipFinalValue
             limit := limit }
         let offerList ← Prog.call (.offerFind q) (fun w tr => w.offerFind tr q)
         if offerList.length ≤ 0 then
           pure ⟨400, .message "No offer can be found with those parameters."⟩
         else
           pure ⟨200, .offers offerList.length offerList⟩)

/-- Modelled from the spec: the helper `functions/isObjectPopulate.js`, which is not among
the sources; it tells whether an object has at least one field ("non-empty field set"). -/
def isObjectPopulate (body : Fields) : Bool :=
  !body.isEmpty

/-- The library test `mongoose.isObjectIdOrHexString` on a route parameter: a string of
24 hexadecimal digits. -/
def isObjectIdOrHexString (id : String) : Bool :=
  id.length == 24 && id.data.all (fun c => c.isDigit || ('a' ≤ c && c ≤ 'f') || ('A' ≤ c && c ≤ 'F'))

/-- The assignment `array[i] = v`: past the end, the array grows and the skipped slots
are holes. -/
def arraySet (xs : List (Option Detail)) (i : Nat) (v : Detail) : List (Option Detail) :=
  if i < xs.length then xs.set i (some v)
  else xs ++ List.replicate (i - xs.length) none ++ [some v]

/-- Lines 313-322: the title. -/
def setTitle (title : JSVal) (o : Offer) : Except Response Offer :=
  if truthy title then
    if typeOf title == "string" && lengthLe title titleMaxStrLength then
      .ok { o with product_name := title }
    else .error ⟨400, .message msgMandatory⟩
  else .ok o

/-- Lines 325-337: the description. -/
def setDescription (description : JSVal) (o : Offer) : Except Response Offer :=
  if truthy description then
    if typeOf description == "string" && lengthLe description descrMaxStrLength then
      .ok { o with product_description := description }
    else .error ⟨400, .message msgMandatory⟩
  else .ok o

/-- Lines 340-349: the price. -/
def setPrice (price : JSVal) (o : Offer) : Except Response Offer :=
  if truthy price then
    if !isNaN price && jsLe price (.num (.fin maxPriceOfferGlobal)) then
      .ok { o with product_price := price }
    else .error ⟨400, .message msgMandatory⟩
  else .ok o

/-- Lines 352-361: the brand. -/
def setBrand (brand : JSVal) (o : Offer) : Except Response Offer :=
  if truthy brand then
    if typeOf brand == "string" && lengthLe brand titleMaxStrLength then
      .ok { o with product_details := arraySet o.product_details 0 ⟨"MARQUE", brand⟩ }
    else .error ⟨400, .message msgMandatory⟩
  else .ok o

/-- Lines 362-374: the size. -/
def setSize (size : JSVal) (o : Offer) : Except Response Offer :=
  if truthy size then
    if (typeOf size == "string" && lengthLe size titleMaxStrLength) ||
        (typeOf size == "number" && jsLe size (.num (.fin maxPriceOfferGlobal))) then
      .ok { o with product_details := arraySet o.product_details 1 ⟨"TAILLE", size⟩ }
    else .error ⟨400, .message msgFields⟩
  else .ok o

/-- Lines 375-387: the condition. -/
def setCondition (condition : JSVal) (o : Offer) : Except Response Offer :=
  if truthy condition then
    if typeOf condition == "string" && lengthLe condition titleMaxStrLength then
      .ok { o with product_details := arraySet o.product_details 2 ⟨"ÉTAT", condition⟩ }
    else .error ⟨400, .message msgFields⟩
  else .ok o

/-- Lines 388-397: the color. -/
def setColor (color : JSVal) (o : Offer) : Except Response Offer :=
  if truthy color then
    if typeOf color == "string" && lengthLe color titleMaxStrLength then
      .ok { o with product_details := arraySet o.product_details 3 ⟨"COULEUR", color⟩ }
    else .error ⟨400, .message msgFields⟩
  else .ok o

/-- Lines 398-407: the city. The source tests `city.length > titleMaxStrLength`. -/
def setCity (city : JSVal) (o : Offer) : Except Response Offer :=
  if truthy city then
    if typeOf city == "string" && lengthGt city titleMaxStrLength then
      .ok { o with product_details := arraySet o.product_details 4 ⟨"EMPLACEMENT", city⟩ }
    else .error ⟨400, .message msgFields⟩
  else .ok o

/-- Lines 312-407: the scalar fields of an update, checked and applied to the document in
memory one after the other; the first failing check ends the request with its response. -/
def applyFields (body : Fields) (o : Offer) : Except Response Offer := do
  let o ← setTitle (body.get "title") o
  let o ← setDescription (body.get "description") o
  let o ← setPrice (body.get "price") o
  let o ← setBrand (body.get "brand") o
  let o ← setSize (body.get "size") o
  let o ← setCondition (body.get "condition") o
  let o ← setColor (body.get "color") o
  setCity (body.get "city") o

/-- The expression `offerToModify.product_pictures.public_id`: `product_pictures` is an
array, and an array has no property `public_id`, so the value is `undefined`. -/
def picturesPublicId (_pictures : List (Option Asset)) : Option String :=
  none

/-- Lines 411-424: a new main image replaces the previous one. -/
def updateImage (o : Offer) (image : Option File) : Prog Offer :=
  match image with
  | some file => do
    let oldId ← publicIdOf o.product_image
    let newFile ← deleteCreateFiles (some file) (some oldId)
    let pid ← publicIdOf newFile
    let fileModification ← createFolder o._id pid offerFolderRootPath
    pure { o with product_image := fileModification }
  | none => pure o

/-- Lines 425-466: new additional pictures. -/
def updatePictures (o : Offer) (pictures : Option Pictures) : Prog Offer :=
  match pictures with
  | none => pure o
  | some (.many arrayPictures) => do
    let picturesToFile ← uploadAll arrayPictures (picturesPublicId o.product_pictures)
    let picturesToUpload ← createFolderAll o._id picturesToFile offerFolderRootPath
    pure { o with product_pictures := picturesToUpload }
  | some (.one picture) => do
    let newFile ← deleteCreateFiles (some picture) (picturesPublicId o.product_pictures)
    let pid ← publicIdOf newFile
    let fileModification ← createFolder o._id pid offerFolderRootPath
    pure { o with product_pictures := [fileModification] }

/-- Lines 409-467: the files of an update. -/
def updateFiles (o : Offer) (files : ReqFiles) : Prog Offer :=
  match files with
  | .files f => do
    let o ← updateImage o f.image
    updatePictures o f.pictures
  | _ => pure o

/-- Lines 311-471: the update of an offer by its owner. -/
def updateOwned (offerToModify : Offer) (body : Fields) (files : ReqFiles) : Prog Response :=
  match applyFields body offerToModify with
  | .error response => pure response
  | .ok offerToModify => do
    let offerToModify ← updateFiles offerToModify files
    Prog.call (.offerSave offerToModify) (fun w tr => w.offerSave tr offerToModify)
    pure ⟨200, .offer offerToModify⟩

/-- Lines 500-511: the deletion of an offer by its owner. -/
def deleteOwned (offerToDelete : Offer) : Prog Response := do
  let pid ← publicIdOf offerToDelete.product_image
  let _ ← deleteCreateFiles none (some pid)
  let folder ← (match offerToDelete.product_image with
    | some a => pure a.folder
    | none => Prog.raise "Cannot read properties of undefined (reading \x27folder\x27)"
    : Prog String)
  deleteFolder folder
  Prog.call (.offerDeleteOne offerToDelete) (fun w tr => w.offerDeleteOne tr offerToDelete)
  pure ⟨200, .message ("Your offer " ++ jsToString offerToDelete.product_name ++
    " was successfully deleted.")⟩

/-- The handler of `PUT /offer/:id`, after `isAuthenticated` has set `req.user`. -/
def updateOffer (user : User) (offerID : String) (body : Fields) (files : ReqFiles) :
    World → Response × List Op :=
  handler
    (if isObjectPopulate body == false && files == .undefined then
      pure ⟨400, .message msgNoChange⟩
    else if isObjectIdOrHexString offerID == false then
      pure ⟨400, .message msgValidId⟩
    else do
      let found ← Prog.call (.offerFindOne offerID) (fun w tr => w.offerFindOne tr offerID)
      match found with
      | none => pure ⟨404, .message msgNoOffer⟩
      | some offerToModify =>
        if offerToModify.owner.token != user.token then
          pure ⟨401, .error msgUnauthorized⟩
        else updateOwned offerToModify body files)

/-- The handler of `DELETE /offer/:id`, after `isAuthenticated` has set `req.user`. -/
def deleteOffer (user : User) (offerID : String) : World → Response × List Op :=
  handler
    (if isObjectIdOrHexString offerID == false then
      pure ⟨400, .message msgValidId⟩
    else do
      let found ← Prog.call (.offerFindOne offerID) (fun w tr => w.offerFindOne tr offerID)
      match found with
      | none => pure ⟨404, .message msgNoOffer⟩
      | some offerToDelete =>
        if offerToDelete.owner.token != user.token then
          pure ⟨401, .error msgUnauthorized⟩
        else deleteOwned offerToDelete)

/-! ## `routes/user.js` -/

/-- Line 60 of `routes/user.js`: `SHA256(password + saltGenerate).toString(encBase64)`. -/
def hashGenerate (w : World) (password salt : String) : String :=
  w.sha256Base64 (password ++ salt)

/-- Line 127 of `routes/user.js`: `SHA256(password + saltUser).toString(encBase64)`. -/
def hashToTest (w : World) (password : JSVal) (saltUser : String) : String :=
  w.sha256Base64 (jsToString password ++ saltUser)

/-- The handler of `POST /user/login`. -/
def login (body : Fields) : World → Response × List Op :=
  handler
    (let email := body.get "email"
     let password := body.get "password"
     do
       let userDoc ← Prog.call (.userFindOne email) (fun w tr => w.userFindOne tr email)
       if email == .undefined || password == .undefined ||
           typeOf email != "string" || typeOf password != "string" then
         pure ⟨400, .message "User not found"⟩
       else
         match userDoc with
         | none => pure ⟨400, .message "User not found"⟩
         | some user => do
           let w ← Prog.world
           if hashToTest w password user.salt == user.hash then
             pure ⟨200, .session user.token user.username⟩
           else
             pure ⟨400, .message "Wrong password."⟩)

/-- The path under which avatars are moved on Cloudinary. -/
def avatarFolderRootPath : String := "vinted/avatar"

/-- The object `req.files` of a signup request: its key `avatar`. -/
structure AvatarFiles where
  avatar : Option File
  deriving DecidableEq, Repr

/-- The pieces of `split(/[@.]/)`: the text is cut at every `@` and every `.`. -/
def splitAtSigns : List Char → List (List Char)
  | [] => [[]]
  | c :: cs =>
    if c == '@' || c == '.' then [] :: splitAtSigns cs
    else
      match splitAtSigns cs with
      | [] => [[c]]
      | piece :: pieces => (c :: piece) :: pieces

/-- The index of the first occurrence of a code unit from position `start`, or -1. -/
def indexOfUnit (u : Nat) : List Nat → Nat → Int
  | [], _ => -1
  | x :: xs, start => if x == u then Int.ofNat start else indexOfUnit u xs (start + 1)

/-- Lines 45-47 of `routes/user.js`: the condition under which the email is refused,
`email.trim().split(/[@.]/).length < 3 || email.indexOf(".") === email.length - 1`. -/
def emailFormatInvalid (email : String) : Bool :=
  decide ((splitAtSigns (jsTrim email.data)).length < 3) ||
  indexOfUnit 46 (utf16 email) 0 == Int.ofNat (jsLength email) - 1

/-- Lines 72-85 of `routes/user.js`: the avatar of a new account. -/
def signupAvatar (newUser : User) (files : Option AvatarFiles) : Prog User :=
  match files with
  | some f => do
    let avatarCreated ← deleteCreateFiles f.avatar none
    let pid ← publicIdOf avatarCreated
    let w ← Prog.world
    let avatarFiled ← createFolder w.newObjectId pid avatarFolderRootPath
    pure { newUser with avatar := avatarFiled }
  | none => pure newUser

/-- Lines 58-91 of `routes/user.js`: the creation of the account. -/
def signupCreate (username email password : JSVal) (files : Option AvatarFiles) :
    Prog Response := do
  let w ← Prog.world
  let saltGenerate := w.uid2 16
  let tokenGenerate := w.uid2 64
  let newUser : User :=
    { username := jsToString username
      avatar := none
      email := jsToString email
      salt := saltGenerate
      hash := hashGenerate w (jsToString password) saltGenerate
      token := tokenGenerate }
  let newUser ← signupAvatar newUser files
  Prog.call (.userSave newUser) (fun w tr => w.userSave tr newUser)
  pure ⟨201, .message ("Your Vinted account was successfully created " ++
    jsToString username ++ ". You can now use your email " ++ jsToString email ++
    " to login.")⟩

/-- Lines 31-91 of `routes/user.js`: the checks made once the lookup of the email has
answered `userDoc`, then the creation of the account. -/
def signupChecks (username email password : JSVal) (files : Option AvatarFiles)
    (userDoc : Option User) : Prog Response :=
  if username == .undefined || email == .undefined || password == .undefined ||
      typeOf username != "string" || typeOf email != "string" ||
      typeOf password != "string" then
    pure ⟨400, .message "Missing parameters"⟩
  else if emailFormatInvalid (jsToString email) then
    pure ⟨400, .message "Please use a valid email address."⟩
  else if userDoc != none then
    pure ⟨409, .message "This email already has an account"⟩
  else signupCreate username email password files

/-- The handler of `POST /user/signup`; `files` is `none` when `req.files` is not set. -/
def signup (body : Fields) (files : Option AvatarFiles) : World → Response × List Op :=
  handler (do
    let userDoc ← Prog.call (.userFindOne (body.get "email"))
      (fun w tr => w.userFindOne tr (body.get "email"))
    signupChecks (body.get "username") (body.get "email") (body.get "password") files userDoc)

/-! ## A sample world -/

/-- The answer of the sample asset store to an upload: an identifier numbered by the calls
issued before it. -/
def sampleUpload (tr : List Op) (_uri : String) : Asset :=
  ⟨"tmp" ++ toString tr.length, "", ""⟩

/-- The answer of the sample asset store to a rename: the identifier asked for. -/
def sampleRename (_tr : List Op) (_src dst : String) : Asset :=
  ⟨dst, "", ""⟩

/-- A world in which every call succeeds: an upload is given an identifier numbered by the
calls issued before it, a renamed asset carries the identifier asked for, the offer store
holds the one offer `stored` and the account store the one account `account`. -/
def sampleWorld (stored : Option Offer) (account : Option User) : World :=
  { newObjectId := ⟨"65f0c0ffee0123456789abcd"⟩
    regExpOk := fun _ => true
    sha256Base64 := fun text => text
    uid2 := fun length => String.mk (List.replicate length 'x')
    destroy := fun _ _ => .ok ()
    upload := fun tr uri => .ok (sampleUpload tr uri)
    sub_folders := fun _ _ => .ok []
    create_folder := fun _ _ => .ok ()
    rename := fun tr src dst => .ok (sampleRename tr src dst)
    delete_folder := fun _ _ => .ok ()
    offerFindOne := fun _ _ => .ok stored
    offerFind := fun _ _ => .ok stored.toList
    offerSave := fun _ _ => .ok ()
    offerPopulate := fun _ _ => .ok ()
    offerDeleteOne := fun _ _ => .ok ()
    userFindOne := fun _ _ => .ok account
    userSave := fun _ _ => .ok () }

/-- The account of the seller in the examples. -/
def sampleUser : User :=
  { username := "ana", avatar := none, email := "ana@mail.io", salt := "s4lt",
    hash := "pass" ++ "s4lt", token := "tok-ana" }

/-- Another account. -/
def otherUser : User :=
  { username := "bob", avatar := none, email := "bob@mail.io", salt := "pepper",
    hash := "word" ++ "pepper", token := "tok-bob" }

/-- A stored offer of `sampleUser`. -/
def sampleOffer : Offer :=
  { _id := ⟨"65f0c0ffee0123456789abcd"⟩
    product_name := .str "Jacket"
    product_description := .str "Warm"
    product_price := .str "45"
    product_details := [some ⟨"MARQUE", .str "Levis"⟩, some ⟨"TAILLE", .str "M"⟩,
      some ⟨"ÉTAT", .str "Good"⟩, some ⟨"COULEUR", .str "Blue"⟩,
      some ⟨"EMPLACEMENT", .str "Lyon"⟩]
    product_image := some ⟨"vinted/offers/65f0c0ffee0123456789abcd/img", 
      "vinted/offers/65f0c0ffee0123456789abcd", ""⟩
    product_pictures := []
    owner := sampleUser }

def sampleFile (name : String) : File :=
  { name := name, mimetype := "image/png", base64 := "AAAA" }

/-- The publish request of the examples, with the given price; the other fields are
strings, as in a multipart form. -/
def jacketBody (price : JSVal) : Fields :=
  [("title", .str "Jacket"), ("description", .str "Warm"), ("price", price),
   ("brand", .str "Levis"), ("size", .str "M"), ("condition", .str "Good"),
   ("color", .str "Blue"), ("city", .str "Lyon")]

/-- A stored offer of `sampleUser` that has two additional pictures. -/
def sampleOfferWithPictures : Offer :=
  { sampleOffer with
    product_pictures :=
      [some ⟨"vinted/offers/65f0c0ffee0123456789abcd/old1",
        "vinted/offers/65f0c0ffee0123456789abcd", ""⟩,
       some ⟨"vinted/offers/65f0c0ffee0123456789abcd/old2",
        "vinted/offers/65f0c0ffee0123456789abcd", ""⟩] }

/-- The sample world with an asset store whose `destroy` call fails. -/
def destroyFailsWorld : World :=
  { sampleWorld none none with destroy := fun _ _ => .error "Request Timeout" }

/-- The signup request of the examples. -/
def signupBody (email : String) : Fields :=
  [("username", .str "ana"), ("email", .str email), ("password", .str "pass")]

/-- The account that the signup of the examples saves in the sample world: the salt is the
draw of `uid2(16)`, the digest is the one of the password followed by the salt, the token is
the draw of `uid2(64)`. -/
def signedUpUser : User :=
  { username := "ana", avatar := none, email := "ana@mail.io",
    salt := String.mk (List.replicate 16 'x'),
    hash := "pass" ++ String.mk (List.replicate 16 'x'),
    token := String.mk (List.replicate 64 'x') }

/-! ## Numeric values, as the claims word them -/

/-- The value has a numeric value above the bound: it reads as a finite number above it,
or as the positive infinity. -/
def valueAbove (v : JSVal) (bound : ℚ) : Prop :=
  (∃ q, toNumber v = .fin q ∧ bound < q) ∨ toNumber v = .posInf

/-! ## The field rules of an update, as the claims word them -/

/-- A string of at most `bound` characters. -/
def withinText (bound : Nat) : JSVal → Bool
  | .str s => decide (jsLength s ≤ bound)
  | _ => false

/-- A value that reads as a number of at most 100000. -/
def withinPrice (v : JSVal) : Bool :=
  match toNumber v with
  | .fin q => decide (q ≤ 100000)
  | .negInf => true
  | .posInf => false
  | .nan => false

/-- A string of at most 50 characters, or a number of at most 100000. -/
def withinSize : JSVal → Bool
  | .str s => decide (jsLength s ≤ 50)
  | .num (.fin q) => decide (q ≤ 100000)
  | .num .negInf => true
  | _ => false

/-- Every field of a publish request but the price is valid: title, brand, condition,
color and city are strings of at most 50 characters, the description is a string of at
most 500 characters, the size is a string of at most 50 characters or a number of at most
100000. -/
def otherFieldsValid (body : Fields) : Bool :=
  withinText 50 (body.get "title") && withinText 500 (body.get "description") &&
  withinText 50 (body.get "brand") && withinSize (body.get "size") &&
  withinText 50 (body.get "condition") && withinText 50 (body.get "color") &&
  withinText 50 (body.get "city")

/-- One of title, description, price, brand, size, condition, color is supplied with a
truthy value that breaks its rule. -/
def breaksRule (body : Fields) : Bool :=
  (truthy (body.get "title") && !withinText 50 (body.get "title")) ||
  (truthy (body.get "description") && !withinText 500 (body.get "description")) ||
  (truthy (body.get "price") && !withinPrice (body.get "price")) ||
  (truthy (body.get "brand") && !withinText 50 (body.get "brand")) ||
  (truthy (body.get "size") && !withinSize (body.get "size")) ||
  (truthy (body.get "condition") && !withinText 50 (body.get "condition")) ||
  (truthy (body.get "color") && !withinText 50 (body.get "color"))

/-! ## Notions used to state the relocation of the assets of a new offer -/

/-- The identifier an asset gets when it is moved under the folder of an offer:
`vinted/offers/<offer id>/<uploaded id>`. -/
def relocated (Id : ObjectId) (uploaded : String) : String :=
  offerFolderRootPath ++ "/" ++ Id.hex ++ "/" ++ uploaded

/-- The upload calls of a list of pictures, in order. -/
def uploadOps (pictures : List File) : List Op :=
  pictures.map (fun p => Op.upload (convertToBase64 p))

/-- The `sub_folders` calls of `n` relocations. -/
def subFolderOps (root : String) (n : Nat) : List Op :=
  List.replicate n (.sub_folders root)

/-- The `create_folder` calls of `n` relocations under the folder of `Id`. -/
def createFolderOps (Id : ObjectId) (root : String) (n : Nat) : List Op :=
  List.replicate n (.create_folder (root ++ "/" ++ Id.hex))

/-- The `rename` calls that move uploaded assets under the folder of `Id`, in order. -/
def renameOps (Id : ObjectId) (root : String) (assets : List Asset) : List Op :=
  assets.map (fun a => Op.rename a.public_id (root ++ "/" ++ Id.hex ++ "/" ++ a.public_id))

/-- The descriptors answered to the renames of a list of assets issued in order after the
calls `tr`, in a store where a rename after the calls `h` answers `rn h src dst`. -/
def renameReplies (rn : List Op → String → String → Asset) (Id : ObjectId) (root : String)
    (tr : List Op) : List Asset → List Asset
  | [] => []
  | a :: as =>
    rn tr a.public_id (root ++ "/" ++ Id.hex ++ "/" ++ a.public_id) ::
      renameReplies rn Id root
        (tr ++ [.rename a.public_id (root ++ "/" ++ Id.hex ++ "/" ++ a.public_id)]) as

/-- The descriptors answered to the uploads of a list of pictures issued in order after
the calls `tr`, in a store where the upload of `uri` after the calls `h` answers `up h uri`. -/
def uploadReplies (up : List Op → String → Asset) (tr : List Op) : List File → List Asset
  | [] => []
  | p :: ps =>
    up tr (convertToBase64 p) :: uploadReplies up (tr ++ [.upload (convertToBase64 p)]) ps

/-- The calls that upload the main image of a new offer and move it under the folder of
the offer, `u` being the descriptor answered to the upload. -/
def primaryOps (Id : ObjectId) (image : File) (u : Asset) : List Op :=
  [.upload (convertToBase64 image), .sub_folders offerFolderRootPath,
   .create_folder (offerFolderRootPath ++ "/" ++ Id.hex),
   .rename u.public_id (relocated Id u.public_id)]

/-- The document a publish request builds: the fields of the body, the descriptor of the
main image and the descriptors of the additional pictures. -/
def offerRecord (w : World) (user : User) (body : Fields) (image : Option Asset)
    (pictures : List (Option Asset)) : Offer :=
  { _id := w.newObjectId
    product_name := body.get "title"
    product_description := body.get "description"
    product_price := body.get "price"
    product_details := detailsBody body
    product_image := image
    product_pictures := pictures
    owner := user }

/-- Every call to the asset store made while publishing succeeds: an upload of `uri` after
the calls `h` answers `up h uri`, a rename after `h` answers `rn h src dst`, a descriptor
that carries the requested new identifier. -/
structure AssetStoreOk (w : World) (up : List Op → String → Asset)
    (rn : List Op → String → String → Asset) : Prop where
  upload_ok : ∀ tr uri, w.upload tr uri = .ok (up tr uri)
  sub_folders_ok : ∀ tr path, ∃ folders, w.sub_folders tr path = .ok folders
  create_folder_ok : ∀ tr path, w.create_folder tr path = .ok ()
  rename_ok : ∀ tr src dst, w.rename tr src dst = .ok (rn tr src dst)
  rename_id : ∀ tr src dst, (rn tr src dst).public_id = dst

/-- The responses with which the field checks of an update end a request. -/
def isFieldRejection (r : Response) : Prop :=
  r = ⟨400, .message msgMandatory⟩ ∨ r = ⟨400, .message msgFields⟩

/-! ## General facts about programs -/

theorem Prog.pure_eq {α : Type} (a : α) : (pure a : Prog α) = Prog.ret a := rfl

theorem Prog.bind_eq {α β : Type} (x : Prog α) (f : α → Prog β) :
    (x >>= f) = Prog.andThen x f := rfl

theorem handler_ret (r : Response) (w : World) : handler (Prog.ret r) w = (r, []) := rfl

theorem Prog.ret_apply {α : Type} (a : α) (w : World) (tr : List Op) :
    Prog.ret a w tr = (.ok a, tr) := rfl

theorem Prog.raise_apply {α : Type} (e : String) (w : World) (tr : List Op) :
    (Prog.raise e : Prog α) w tr = (.error e, tr) := rfl

theorem Prog.world_apply (w : World) (tr : List Op) : Prog.world w tr = (.ok w, tr) := rfl

theorem Prog.call_apply {α : Type} (op : Op) (outcome : World → List Op → Except String α)
    (w : World) (tr : List Op) : Prog.call op outcome w tr = (outcome w tr, tr ++ [op]) := rfl

theorem Prog.andThen_apply {α β : Type} (x : Prog α) (f : α → Prog β) (w : World)
    (tr : List Op) :
    Prog.andThen x f w tr =
      match x w tr with
      | (.ok a, tr1) => f a w tr1
      | (.error e, tr1) => (.error e, tr1) := rfl

/-- When the first part returns, sequencing continues with the second. -/
theorem Prog.andThen_of_ok {α β : Type} {x : Prog α} {f : α → Prog β} {w : World}
    {tr tr1 : List Op} {a : α} (h : x w tr = (.ok a, tr1)) :
    Prog.andThen x f w tr = f a w tr1 := by
  rw [Prog.andThen_apply, h]

/-- When the first part throws, the second is skipped. -/
theorem Prog.andThen_of_error {α β : Type} {x : Prog α} {f : α → Prog β} {w : World}
    {tr tr1 : List Op} {e : String} (h : x w tr = (.error e, tr1)) :
    Prog.andThen x f w tr = (.error e, tr1) := by
  rw [Prog.andThen_apply, h]

/-- A call that succeeds hands its result to the rest of the program. -/
theorem Prog.call_andThen_ok {α β : Type} {op : Op}
    {outcome : World → List Op → Except String α} {f : α → Prog β} {w : World}
    {tr : List Op} {a : α} (h : outcome w tr = .ok a) :
    Prog.andThen (Prog.call op outcome) f w tr = f a w (tr ++ [op]) := by
  rw [Prog.andThen_apply, Prog.call_apply, h]

/-- A call that fails ends the program with its error. -/
theorem Prog.call_andThen_error {α β : Type} {op : Op}
    {outcome : World → List Op → Except String α} {f : α → Prog β} {w : World}
    {tr : List Op} {e : String} (h : outcome w tr = .error e) :
    Prog.andThen (Prog.call op outcome) f w tr = (.error e, tr ++ [op]) := by
  rw [Prog.andThen_apply, Prog.call_apply, h]

/-- A sequence that returns went through both of its parts. -/
theorem Prog.andThen_ok {α β : Type} {x : Prog α} {f : α → Prog β} {w : World}
    {tr tr2 : List Op} {b : β} (h : Prog.andThen x f w tr = (.ok b, tr2)) :
    ∃ a tr1, x w tr = (.ok a, tr1) ∧ f a w tr1 = (.ok b, tr2) := by
  rcases hx : x w tr with ⟨res, tr1⟩
  cases res with
  | error e =>
    rw [Prog.andThen_of_error hx] at h
    cases h
  | ok a =>
    rw [Prog.andThen_of_ok hx] at h
    exact ⟨a, tr1, rfl, h⟩

/-- The test `v > m` against a number holds exactly when `v` reads as a number above `m`
or as the positive infinity. -/
theorem jsGt_num (v : JSVal) (m : ℚ) :
    jsGt v (.num (.fin m)) = true ↔ valueAbove v m := by
  have h : lessThan (.num (.fin m)) v = (JSNum.fin m).lt (toNumber v) := by
    cases v <;> rfl
  unfold jsGt valueAbove
  rw [h]
  cases toNumber v with
  | nan => simp [JSNum.lt]
  | posInf => simp [JSNum.lt]
  | negInf => simp [JSNum.lt]
  | fin q => simp [JSNum.lt]

/-- The product computed from numerators and denominators is the product. -/
theorem ratMul_eq (a b : ℚ) : ratMul a b = a * b := by
  unfold ratMul
  rw [Rat.mul_def, Rat.normalize_eq_mkRat]

/-- The difference computed from numerators and denominators is the difference. -/
theorem ratSub_eq (a b : ℚ) : ratSub a b = a - b := by
  unfold ratSub
  rw [Rat.sub_def, Rat.normalize_eq_mkRat]

/-- The test `v > m` against a number, from what `v` reads as. -/
theorem jsGt_eq (v : JSVal) (m : ℚ) :
    jsGt v (.num (.fin m)) =
      match toNumber v with
      | .fin q => decide (m < q)
      | .posInf => true
      | .negInf => false
      | .nan => false := by
  have h : lessThan (.num (.fin m)) v = (JSNum.fin m).lt (toNumber v) := by
    cases v <;> rfl
  unfold jsGt
  rw [h]
  cases toNumber v <;> simp [JSNum.lt]

/-- A value within a text bound is a string of at most that length. -/
theorem withinText_str {bound : Nat} {v : JSVal} (h : withinText bound v = true) :
    ∃ s, v = .str s ∧ jsLength s ≤ bound := by
  cases v with
  | str s => exact ⟨s, rfl, by simpa [withinText] using h⟩
  | _ => simp [withinText] at h

/-- The three tests the publish check makes on the size are passed by a valid size. -/
theorem size_tests_of_withinSize {v : JSVal} (h : withinSize v = true) :
    (typeOf v != "string" && isNaN v) = false ∧
    (typeOf v == "string" && lengthGt v titleMaxStrLength) = false ∧
    (typeOf v == "number" && jsGt v (.num (.fin maxPriceOfferGlobal))) = false := by
  cases v with
  | str s =>
    have hs : jsLength s ≤ 50 := by simpa [withinSize] using h
    simp [typeOf, lengthGt, titleMaxStrLength, hs]
  | num x =>
    rw [jsGt_eq]
    cases x with
    | fin q =>
      have hq : q ≤ 100000 := by simpa [withinSize] using h
      simp [typeOf, isNaN, toNumber, maxPriceOfferGlobal, not_lt.mpr hq]
    | negInf => simp [typeOf, isNaN, toNumber]
    | posInf => simp [withinSize] at h
    | nan => simp [withinSize] at h
  | undefined => simp [withinSize] at h
  | null => simp [withinSize] at h
  | bool b => simp [withinSize] at h
  | object p => simp [withinSize] at h

/-- The three tests the publish check makes on the price fail exactly when the price reads
as a number of at most 100000. -/
theorem price_tests (v : JSVal) :
    (v == .undefined || isNaN v || jsGt v (.num (.fin maxPriceOfferGlobal))) =
      !withinPrice v := by
  rw [jsGt_eq]
  unfold isNaN withinPrice maxPriceOfferGlobal
  cases v with
  | undefined => simp [toNumber]
  | null => simp [toNumber]
  | bool b => cases b <;> simp [toNumber]
  | num x =>
    cases x with
    | fin q => by_cases hq : q ≤ 100000 <;> simp [toNumber, hq, not_lt.mpr, lt_of_not_le]
    | _ => simp [toNumber]
  | str t =>
    show ((JSVal.str t == JSVal.undefined) || (stringToNumber t == JSNum.nan) || _) = _
    cases hx : stringToNumber t with
    | fin q => by_cases hq : q ≤ 100000 <;> simp [toNumber, hx, hq, not_lt.mpr, lt_of_not_le]
    | _ => simp [toNumber, hx]
  | object t =>
    show ((JSVal.object t == JSVal.undefined) || (stringToNumber t == JSNum.nan) || _) = _
    cases hx : stringToNumber t with
    | fin q => by_cases hq : q ≤ 100000 <;> simp [toNumber, hx, hq, not_lt.mpr, lt_of_not_le]
    | _ => simp [toNumber, hx]

/-- When every field but the price is valid, the check of lines 46-67 rejects the request
exactly when the price does not read as a number of at most 100000. -/
theorem publishInvalid_of_valid_fields (body : Fields) (h : otherFieldsValid body = true) :
    publishInvalid body = !withinPrice (body.get "price") := by
  unfold otherFieldsValid at h
  simp only [Bool.and_eq_true] at h
  obtain ⟨⟨⟨⟨⟨⟨ht, hd⟩, hb⟩, hs⟩, hc⟩, hco⟩, hci⟩ := h
  obtain ⟨t, ht1, ht2⟩ := withinText_str ht
  obtain ⟨d, hd1, hd2⟩ := withinText_str hd
  obtain ⟨b, hb1, hb2⟩ := withinText_str hb
  obtain ⟨c, hc1, hc2⟩ := withinText_str hc
  obtain ⟨co, hco1, hco2⟩ := withinText_str hco
  obtain ⟨ci, hci1, hci2⟩ := withinText_str hci
  obtain ⟨hs1, hs2, hs3⟩ := size_tests_of_withinSize hs
  have hp := price_tests (body.get "price")
  unfold publishInvalid
  simp only [ht1, hd1, hb1, hc1, hco1, hci1, hs1, hs2, hs3]
  cases hw : withinPrice (body.get "price") with
  | true =>
    rw [hw] at hp
    simp only [Bool.not_true, Bool.or_eq_false_iff] at hp
    simp [typeOf, lengthGt, titleMaxStrLength, descrMaxStrLength, ht2, hd2, hb2, hc2, hco2,
      hci2, hp.1.1, hp.1.2, hp.2]
  | false =>
    rw [hw] at hp
    simp only [Bool.not_false, Bool.or_eq_true] at hp
    rcases hp with (hp | hp) | hp <;>
      simp [typeOf, lengthGt, titleMaxStrLength, descrMaxStrLength, ht2, hd2, hb2, hc2, hco2,
        hci2, hp]

/-- A publish request that passes the check of lines 46-67 is answered 200, or 500 when a
step fails: never 400. -/
theorem publish_valid_status (user : User) (body : Fields) (files : Files) (w : World)
    (h : publishInvalid body = false) :
    (publish user body files w).1.status = 200 ∨ (publish user body files w).1.status = 500 := by
  unfold publish handler
  rw [if_neg (by rw [h]; simp)]
  simp only [Prog.bind_eq, Prog.pure_eq]
  rcases hrun : Prog.andThen (deleteCreateFiles files.image none) _ w [] with ⟨res, tr⟩
  cases res with
  | error e => exact Or.inr rfl
  | ok r =>
    left
    obtain ⟨_, _, -, h1⟩ := Prog.andThen_ok hrun
    obtain ⟨_, _, -, h1⟩ := Prog.andThen_ok h1
    obtain ⟨_, _, -, h1⟩ := Prog.andThen_ok h1
    obtain ⟨_, _, -, h1⟩ := Prog.andThen_ok h1
    obtain ⟨_, _, -, h1⟩ := Prog.andThen_ok h1
    obtain ⟨_, _, -, h1⟩ := Prog.andThen_ok h1
    obtain ⟨_, _, -, h1⟩ := Prog.andThen_ok h1
    rw [Prog.ret_apply] at h1
    cases h1
    rfl

/-- A request that fails the check of lines 46-67 is answered 400 before any call. -/
theorem publish_of_invalid (user : User) (body : Fields) (files : Files) (w : World)
    (h : publishInvalid body = true) :
    publish user body files w = (⟨400, .message msgMandatory⟩, []) := by
  unfold publish
  rw [if_pos h]
  rfl

theorem setTitle_error {v : JSVal} {o : Offer} {r : Response} (h : setTitle v o = .error r) :
    isFieldRejection r := by
  unfold setTitle at h
  split at h
  · split at h
    · cases h
    · cases h; exact Or.inl rfl
  · cases h

theorem setDescription_error {v : JSVal} {o : Offer} {r : Response}
    (h : setDescription v o = .error r) : isFieldRejection r := by
  unfold setDescription at h
  split at h
  · split at h
    · cases h
    · cases h; exact Or.inl rfl
  · cases h

theorem setPrice_error {v : JSVal} {o : Offer} {r : Response} (h : setPrice v o = .error r) :
    isFieldRejection r := by
  unfold setPrice at h
  split at h
  · split at h
    · cases h
    · cases h; exact Or.inl rfl
  · cases h

theorem setBrand_error {v : JSVal} {o : Offer} {r : Response} (h : setBrand v o = .error r) :
    isFieldRejection r := by
  unfold setBrand at h
  split at h
  · split at h
    · cases h
    · cases h; exact Or.inl rfl
  · cases h

theorem setSize_error {v : JSVal} {o : Offer} {r : Response} (h : setSize v o = .error r) :
    isFieldRejection r := by
  unfold setSize at h
  split at h
  · split at h
    · cases h
    · cases h; exact Or.inr rfl
  · cases h

theorem setCondition_error {v : JSVal} {o : Offer} {r : Response}
    (h : setCondition v o = .error r) : isFieldRejection r := by
  unfold setCondition at h
  split at h
  · split at h
    · cases h
    · cases h; exact Or.inr rfl
  · cases h

theorem setColor_error {v : JSVal} {o : Offer} {r : Response} (h : setColor v o = .error r) :
    isFieldRejection r := by
  unfold setColor at h
  split at h
  · split at h
    · cases h
    · cases h; exact Or.inr rfl
  · cases h

theorem setCity_error {v : JSVal} {o : Offer} {r : Response} (h : setCity v o = .error r) :
    isFieldRejection r := by
  unfold setCity at h
  split at h
  · split at h
    · cases h
    · cases h; exact Or.inr rfl
  · cases h

/-- An exception of `x >>= f` in `Except` comes from `x` or from `f`. -/
theorem except_bind_error {ε α β : Type} {x : Except ε α} {f : α → Except ε β} {e : ε}
    (h : (x >>= f) = .error e) : x = .error e ∨ ∃ a, x = .ok a ∧ f a = .error e := by
  cases x with
  | error e1 => left; simpa [bind, Except.bind] using h
  | ok a => right; exact ⟨a, rfl, by simpa [bind, Except.bind] using h⟩

/-- Whatever field check ends an update, the response is one of the two 400 rejections. -/
theorem applyFields_error {body : Fields} {o : Offer} {r : Response}
    (h : applyFields body o = .error r) : isFieldRejection r := by
  unfold applyFields at h
  rcases except_bind_error h with h1 | ⟨o1, -, h⟩
  · exact setTitle_error h1
  rcases except_bind_error h with h1 | ⟨o2, -, h⟩
  · exact setDescription_error h1
  rcases except_bind_error h with h1 | ⟨o3, -, h⟩
  · exact setPrice_error h1
  rcases except_bind_error h with h1 | ⟨o4, -, h⟩
  · exact setBrand_error h1
  rcases except_bind_error h with h1 | ⟨o5, -, h⟩
  · exact setSize_error h1
  rcases except_bind_error h with h1 | ⟨o6, -, h⟩
  · exact setCondition_error h1
  rcases except_bind_error h with h1 | ⟨o7, -, h⟩
  · exact setColor_error h1
  exact setCity_error h

/-- The update of an offer by its owner answers a field rejection or 200, unless a call
throws. -/
theorem updateOwned_ok {o : Offer} {body : Fields} {files : ReqFiles} {w : World}
    {tr tr1 : List Op} {r : Response} (h : updateOwned o body files w tr = (.ok r, tr1)) :
    isFieldRejection r ∨ r.status = 200 := by
  unfold updateOwned at h
  cases happ : applyFields body o with
  | error response =>
    rw [happ] at h
    left
    have : r = response := by
      simp only [Prog.pure_eq, Prog.ret, Prod.mk.injEq, Except.ok.injEq] at h
      exact h.1.symm
    rw [this]
    exact applyFields_error happ
  | ok o1 =>
    rw [happ] at h
    right
    simp only [Prog.bind_eq, Prog.pure_eq] at h
    obtain ⟨o2, tr2, -, h⟩ := Prog.andThen_ok h
    obtain ⟨_, tr3, -, h⟩ := Prog.andThen_ok h
    rw [Prog.ret_apply] at h
    cases h
    rfl

/-- A rejected field check ends the update at once: the response is that rejection and no
call is issued. -/
theorem updateOwned_of_error {o : Offer} {body : Fields} {files : ReqFiles} {w : World}
    {tr : List Op} {r : Response} (h : applyFields body o = .error r) :
    updateOwned o body files w tr = (.ok r, tr) := by
  unfold updateOwned
  rw [h]
  rfl

/-- The handler of `PUT /offer/:id` on a stored offer whose owner sends the request. -/
theorem updateOffer_owned {user : User} {offerID : String} {body : Fields} {files : ReqFiles}
    {w : World} {o : Offer} (hchange : ¬ (body = [] ∧ files = .undefined))
    (hid : isObjectIdOrHexString offerID = true)
    (hfind : w.offerFindOne [] offerID = .ok (some o))
    (htoken : o.owner.token = user.token) :
    updateOffer user offerID body files w =
      match updateOwned o body files w [.offerFindOne offerID] with
      | (.ok response, tr) => (response, tr)
      | (.error e, tr) => (⟨500, .message e⟩, tr) := by
  have h1 : (isObjectPopulate body == false && files == .undefined) = false := by
    cases body with
    | nil =>
      have : files ≠ .undefined := fun hf => hchange ⟨rfl, hf⟩
      simp [isObjectPopulate, this]
    | cons a l => simp [isObjectPopulate]
  unfold updateOffer handler
  rw [if_neg (by rw [h1]; simp), if_neg (by simp [hid]), Prog.bind_eq,
    Prog.call_andThen_ok hfind]
  simp [htoken]

/-- The response of an owner's update, read off the outcome of `updateOwned`. -/
theorem handler_updateOwned_cases (o : Offer) (body : Fields) (files : ReqFiles) (w : World)
    (tr : List Op) :
    let r := (match updateOwned o body files w tr with
      | (.ok response, tr1) => (response, tr1)
      | (.error e, tr1) => ((⟨500, .message e⟩ : Response), tr1)).1
    isFieldRejection r ∨ r.status = 200 ∨ r.status = 500 := by
  rcases hrun : updateOwned o body files w tr with ⟨res, tr1⟩
  cases res with
  | error e => exact Or.inr (Or.inr rfl)
  | ok r =>
    rcases updateOwned_ok hrun with h | h
    · exact Or.inl h
    · exact Or.inr (Or.inl h)

/-- Every response of `PUT /offer/:id` to a request that changes something. -/
theorem updateOffer_cases (user : User) (offerID : String) (body : Fields) (files : ReqFiles)
    (w : World) (hchange : ¬ (body = [] ∧ files = .undefined)) :
    (updateOffer user offerID body files w).1 = ⟨400, .message msgValidId⟩ ∨
    (updateOffer user offerID body files w).1 = ⟨404, .message msgNoOffer⟩ ∨
    (updateOffer user offerID body files w).1 = ⟨401, .error msgUnauthorized⟩ ∨
    isFieldRejection (updateOffer user offerID body files w).1 ∨
    (updateOffer user offerID body files w).1.status = 200 ∨
    (updateOffer user offerID body files w).1.status = 500 := by
  have h1 : (isObjectPopulate body == false && files == .undefined) = false := by
    cases body with
    | nil =>
      have : files ≠ .undefined := fun hf => hchange ⟨rfl, hf⟩
      simp [isObjectPopulate, this]
    | cons a l => simp [isObjectPopulate]
  cases hid : isObjectIdOrHexString offerID with
  | false =>
    left
    unfold updateOffer handler
    rw [if_neg (by rw [h1]; simp), if_pos (by simp [hid])]
    rfl
  | true =>
    cases hfind : w.offerFindOne [] offerID with
    | error e =>
      right; right; right; right; right
      unfold updateOffer handler
      rw [if_neg (by rw [h1]; simp), if_neg (by simp [hid]), Prog.bind_eq,
        Prog.call_andThen_error hfind]
    | ok found =>
      cases found with
      | none =>
        right; left
        unfold updateOffer handler
        rw [if_neg (by rw [h1]; simp), if_neg (by simp [hid]), Prog.bind_eq,
          Prog.call_andThen_ok hfind]
        rfl
      | some o =>
        by_cases htoken : o.owner.token = user.token
        · right; right; right
          rw [updateOffer_owned hchange hid hfind htoken]
          exact handler_updateOwned_cases o body files w _
        · right; right; left
          unfold updateOffer handler
          rw [if_neg (by rw [h1]; simp), if_neg (by simp [hid]), Prog.bind_eq,
            Prog.call_andThen_ok hfind]
          simp [htoken, Prog.pure_eq, Prog.ret]

/-- The deletion of an offer by its owner answers 200, unless a call throws. -/
theorem deleteOwned_ok {o : Offer} {w : World} {tr tr1 : List Op} {r : Response}
    (h : deleteOwned o w tr = (.ok r, tr1)) : r.status = 200 := by
  unfold deleteOwned at h
  simp only [Prog.bind_eq, Prog.pure_eq] at h
  obtain ⟨_, _, -, h⟩ := Prog.andThen_ok h
  obtain ⟨_, _, -, h⟩ := Prog.andThen_ok h
  obtain ⟨_, _, -, h⟩ := Prog.andThen_ok h
  obtain ⟨_, _, -, h⟩ := Prog.andThen_ok h
  obtain ⟨_, _, -, h⟩ := Prog.andThen_ok h
  rw [Prog.ret_apply] at h
  cases h
  rfl

/-- The handler of `DELETE /offer/:id` on a stored offer. -/
theorem deleteOffer_found {user : User} {offerID : String} {w : World} {o : Offer}
    (hid : isObjectIdOrHexString offerID = true)
    (hfind : w.offerFindOne [] offerID = .ok (some o)) :
    deleteOffer user offerID w =
      if o.owner.token = user.token then
        match deleteOwned o w [.offerFindOne offerID] with
        | (.ok response, tr) => (response, tr)
        | (.error e, tr) => (⟨500, .message e⟩, tr)
      else (⟨401, .error msgUnauthorized⟩, [.offerFindOne offerID]) := by
  unfold deleteOffer handler
  rw [if_neg (by simp [hid]), Prog.bind_eq, Prog.call_andThen_ok hfind]
  by_cases htoken : o.owner.token = user.token
  · simp [htoken]
  · simp [htoken, Prog.pure_eq, Prog.ret]

/-- The handler of `PUT /offer/:id` on a stored offer of somebody else. -/
theorem updateOffer_not_owner {user : User} {offerID : String} {body : Fields}
    {files : ReqFiles} {w : World} {o : Offer} (hchange : ¬ (body = [] ∧ files = .undefined))
    (hid : isObjectIdOrHexString offerID = true)
    (hfind : w.offerFindOne [] offerID = .ok (some o))
    (htoken : o.owner.token ≠ user.token) :
    updateOffer user offerID body files w =
      (⟨401, .error msgUnauthorized⟩, [.offerFindOne offerID]) := by
  have h1 : (isObjectPopulate body == false && files == .undefined) = false := by
    cases body with
    | nil =>
      have : files ≠ .undefined := fun hf => hchange ⟨rfl, hf⟩
      simp [isObjectPopulate, this]
    | cons a l => simp [isObjectPopulate]
  unfold updateOffer handler
  rw [if_neg (by rw [h1]; simp), if_neg (by simp [hid]), Prog.bind_eq,
    Prog.call_andThen_ok hfind]
  simp [htoken, Prog.pure_eq, Prog.ret]

theorem typeOf_string_and_lengthLe (v : JSVal) (bound : Nat) :
    (typeOf v == "string" && lengthLe v bound) = withinText bound v := by
  cases v <;> simp [typeOf, lengthLe, withinText]

/-- Comparing a number with a value compares the number with what the value reads as. -/
theorem lessThan_num_left (m : ℚ) (v : JSVal) :
    lessThan (.num (.fin m)) v = (JSNum.fin m).lt (toNumber v) := by
  cases v <;> rfl

/-- The test `v <= m` against a number: `v` reads as a number that is at most `m`. -/
theorem jsLe_num (v : JSVal) (m : ℚ) :
    jsLe v (.num (.fin m)) =
      match toNumber v with
      | .fin q => decide (q ≤ m)
      | .negInf => true
      | .posInf => false
      | .nan => false := by
  unfold jsLe
  rw [lessThan_num_left]
  cases toNumber v with
  | nan => rfl
  | posInf => rfl
  | negInf => rfl
  | fin q =>
    show (some (decide (m < q)) == some false) = decide (q ≤ m)
    by_cases h : m < q
    · have h2 : ¬ q ≤ m := not_le.mpr h
      simp [h, h2]
    · have h2 : q ≤ m := not_lt.mp h
      simp [h, h2]

theorem price_check (v : JSVal) :
    (!isNaN v && jsLe v (.num (.fin maxPriceOfferGlobal))) = withinPrice v := by
  rw [jsLe_num]
  unfold isNaN withinPrice maxPriceOfferGlobal
  cases toNumber v <;> simp

theorem size_check (v : JSVal) :
    ((typeOf v == "string" && lengthLe v titleMaxStrLength) ||
      (typeOf v == "number" && jsLe v (.num (.fin maxPriceOfferGlobal)))) = withinSize v := by
  rw [jsLe_num]
  cases v with
  | num x => cases x <;> simp [typeOf, lengthLe, withinSize, toNumber, maxPriceOfferGlobal]
  | _ => simp [typeOf, lengthLe, withinSize, titleMaxStrLength]

theorem setTitle_ok {v : JSVal} {o o1 : Offer} (h : setTitle v o = .ok o1) :
    (truthy v && !withinText 50 v) = false := by
  unfold setTitle at h
  rw [typeOf_string_and_lengthLe, titleMaxStrLength] at h
  cases ht : truthy v <;> cases hw : withinText 50 v <;> simp_all

theorem setDescription_ok {v : JSVal} {o o1 : Offer} (h : setDescription v o = .ok o1) :
    (truthy v && !withinText 500 v) = false := by
  unfold setDescription at h
  rw [typeOf_string_and_lengthLe, descrMaxStrLength] at h
  cases ht : truthy v <;> cases hw : withinText 500 v <;> simp_all

theorem setPrice_ok {v : JSVal} {o o1 : Offer} (h : setPrice v o = .ok o1) :
    (truthy v && !withinPrice v) = false := by
  unfold setPrice at h
  rw [price_check] at h
  cases ht : truthy v <;> cases hw : withinPrice v <;> simp_all

theorem setBrand_ok {v : JSVal} {o o1 : Offer} (h : setBrand v o = .ok o1) :
    (truthy v && !withinText 50 v) = false := by
  unfold setBrand at h
  rw [typeOf_string_and_lengthLe, titleMaxStrLength] at h
  cases ht : truthy v <;> cases hw : withinText 50 v <;> simp_all

theorem setSize_ok {v : JSVal} {o o1 : Offer} (h : setSize v o = .ok o1) :
    (truthy v && !withinSize v) = false := by
  unfold setSize at h
  rw [size_check] at h
  cases ht : truthy v <;> cases hw : withinSize v <;> simp_all

theorem setCondition_ok {v : JSVal} {o o1 : Offer} (h : setCondition v o = .ok o1) :
    (truthy v && !withinText 50 v) = false := by
  unfold setCondition at h
  rw [typeOf_string_and_lengthLe, titleMaxStrLength] at h
  cases ht : truthy v <;> cases hw : withinText 50 v <;> simp_all

theorem setColor_ok {v : JSVal} {o o1 : Offer} (h : setColor v o = .ok o1) :
    (truthy v && !withinText 50 v) = false := by
  unfold setColor at h
  rw [typeOf_string_and_lengthLe, titleMaxStrLength] at h
  cases ht : truthy v <;> cases hw : withinText 50 v <;> simp_all

/-- When a truthy field among the first seven breaks its rule, the field checks end the
update with a rejection, whatever the other fields are. -/
theorem applyFields_of_breaksRule {body : Fields} (o : Offer) (h : breaksRule body = true) :
    ∃ r, applyFields body o = .error r := by
  unfold applyFields
  cases h1 : setTitle (body.get "title") o with
  | error r => exact ⟨r, rfl⟩
  | ok o1 =>
  cases h2 : setDescription (body.get "description") o1 with
  | error r => exact ⟨r, by simp [bind, Except.bind, h2]⟩
  | ok o2 =>
  cases h3 : setPrice (body.get "price") o2 with
  | error r => exact ⟨r, by simp [bind, Except.bind, h2, h3]⟩
  | ok o3 =>
  cases h4 : setBrand (body.get "brand") o3 with
  | error r => exact ⟨r, by simp [bind, Except.bind, h2, h3, h4]⟩
  | ok o4 =>
  cases h5 : setSize (body.get "size") o4 with
  | error r => exact ⟨r, by simp [bind, Except.bind, h2, h3, h4, h5]⟩
  | ok o5 =>
  cases h6 : setCondition (body.get "condition") o5 with
  | error r => exact ⟨r, by simp [bind, Except.bind, h2, h3, h4, h5, h6]⟩
  | ok o6 =>
  cases h7 : setColor (body.get "color") o6 with
  | error r => exact ⟨r, by simp [bind, Except.bind, h2, h3, h4, h5, h6, h7]⟩
  | ok o7 =>
    exfalso
    have k1 := setTitle_ok h1
    have k2 := setDescription_ok h2
    have k3 := setPrice_ok h3
    have k4 := setBrand_ok h4
    have k5 := setSize_ok h5
    have k6 := setCondition_ok h6
    have k7 := setColor_ok h7
    unfold breaksRule at h
    rw [k1, k2, k3, k4, k5, k6, k7] at h
    simp at h

/-- A body without fields breaks no rule. -/
theorem breaksRule_nil : breaksRule [] = false := by decide

/-- A title that is falsy or within its rule: the check passes, and the title is written
when it is truthy. -/
theorem setTitle_of_rule {v : JSVal} (o : Offer) (h : (truthy v && !withinText 50 v) = false) :
    setTitle v o = .ok (if truthy v then { o with product_name := v } else o) := by
  unfold setTitle
  rw [typeOf_string_and_lengthLe, titleMaxStrLength]
  cases ht : truthy v <;> cases hw : withinText 50 v <;> simp_all

theorem setDescription_of_rule {v : JSVal} (o : Offer)
    (h : (truthy v && !withinText 500 v) = false) :
    setDescription v o = .ok (if truthy v then { o with product_description := v } else o) := by
  unfold setDescription
  rw [typeOf_string_and_lengthLe, descrMaxStrLength]
  cases ht : truthy v <;> cases hw : withinText 500 v <;> simp_all

theorem setPrice_of_rule {v : JSVal} (o : Offer) (h : (truthy v && !withinPrice v) = false) :
    setPrice v o = .ok (if truthy v then { o with product_price := v } else o) := by
  unfold setPrice
  rw [price_check]
  cases ht : truthy v <;> cases hw : withinPrice v <;> simp_all

theorem setBrand_of_rule {v : JSVal} (o : Offer) (h : (truthy v && !withinText 50 v) = false) :
    setBrand v o = .ok (if truthy v then
      { o with product_details := arraySet o.product_details 0 ⟨"MARQUE", v⟩ } else o) := by
  unfold setBrand
  rw [typeOf_string_and_lengthLe, titleMaxStrLength]
  cases ht : truthy v <;> cases hw : withinText 50 v <;> simp_all

theorem setSize_of_rule {v : JSVal} (o : Offer) (h : (truthy v && !withinSize v) = false) :
    setSize v o = .ok (if truthy v then
      { o with product_details := arraySet o.product_details 1 ⟨"TAILLE", v⟩ } else o) := by
  unfold setSize
  rw [size_check]
  cases ht : truthy v <;> cases hw : withinSize v <;> simp_all

theorem setCondition_of_rule {v : JSVal} (o : Offer)
    (h : (truthy v && !withinText 50 v) = false) :
    setCondition v o = .ok (if truthy v then
      { o with product_details := arraySet o.product_details 2 ⟨"ÉTAT", v⟩ } else o) := by
  unfold setCondition
  rw [typeOf_string_and_lengthLe, titleMaxStrLength]
  cases ht : truthy v <;> cases hw : withinText 50 v <;> simp_all

theorem setColor_of_rule {v : JSVal} (o : Offer) (h : (truthy v && !withinText 50 v) = false) :
    setColor v o = .ok (if truthy v then
      { o with product_details := arraySet o.product_details 3 ⟨"COULEUR", v⟩ } else o) := by
  unfold setColor
  rw [typeOf_string_and_lengthLe, titleMaxStrLength]
  cases ht : truthy v <;> cases hw : withinText 50 v <;> simp_all

/-- The title step, with what it leaves untouched. -/
theorem setTitle_frame {v : JSVal} (o : Offer) (h : (truthy v && !withinText 50 v) = false) :
    ∃ o1, setTitle v o = .ok o1 ∧
      o1.product_name = (if truthy v then v else o.product_name) ∧
      o1.product_description = o.product_description ∧
      o1.product_price = o.product_price ∧
      o1.product_details = o.product_details := by
  refine ⟨_, setTitle_of_rule o h, ?_, ?_, ?_, ?_⟩ <;> cases truthy v <;> rfl

/-- The description step, with what it leaves untouched. -/
theorem setDescription_frame {v : JSVal} (o : Offer)
    (h : (truthy v && !withinText 500 v) = false) :
    ∃ o1, setDescription v o = .ok o1 ∧
      o1.product_name = o.product_name ∧
      o1.product_description = (if truthy v then v else o.product_description) ∧
      o1.product_price = o.product_price ∧
      o1.product_details = o.product_details := by
  refine ⟨_, setDescription_of_rule o h, ?_, ?_, ?_, ?_⟩ <;> cases truthy v <;> rfl

/-- The price step, with what it leaves untouched. -/
theorem setPrice_frame {v : JSVal} (o : Offer) (h : (truthy v && !withinPrice v) = false) :
    ∃ o1, setPrice v o = .ok o1 ∧
      o1.product_name = o.product_name ∧
      o1.product_description = o.product_description ∧
      o1.product_price = (if truthy v then v else o.product_price) ∧
      o1.product_details = o.product_details := by
  refine ⟨_, setPrice_of_rule o h, ?_, ?_, ?_, ?_⟩ <;> cases truthy v <;> rfl

/-- The brand step, with what it leaves untouched. -/
theorem setBrand_frame {v : JSVal} (o : Offer) (h : (truthy v && !withinText 50 v) = false) :
    ∃ o1, setBrand v o = .ok o1 ∧
      o1.product_name = o.product_name ∧
      o1.product_description = o.product_description ∧
      o1.product_price = o.product_price ∧
      (truthy v = false → o1.product_details = o.product_details) := by
  refine ⟨_, setBrand_of_rule o h, ?_, ?_, ?_, ?_⟩
  · cases truthy v <;> rfl
  · cases truthy v <;> rfl
  · cases truthy v <;> rfl
  · intro k
    rw [k]
    rfl

/-- The size step, with what it leaves untouched. -/
theorem setSize_frame {v : JSVal} (o : Offer) (h : (truthy v && !withinSize v) = false) :
    ∃ o1, setSize v o = .ok o1 ∧
      o1.product_name = o.product_name ∧
      o1.product_description = o.product_description ∧
      o1.product_price = o.product_price ∧
      (truthy v = false → o1.product_details = o.product_details) := by
  refine ⟨_, setSize_of_rule o h, ?_, ?_, ?_, ?_⟩
  · cases truthy v <;> rfl
  · cases truthy v <;> rfl
  · cases truthy v <;> rfl
  · intro k
    rw [k]
    rfl

/-- The condition step, with what it leaves untouched. -/
theorem setCondition_frame {v : JSVal} (o : Offer)
    (h : (truthy v && !withinText 50 v) = false) :
    ∃ o1, setCondition v o = .ok o1 ∧
      o1.product_name = o.product_name ∧
      o1.product_description = o.product_description ∧
      o1.product_price = o.product_price ∧
      (truthy v = false → o1.product_details = o.product_details) := by
  refine ⟨_, setCondition_of_rule o h, ?_, ?_, ?_, ?_⟩
  · cases truthy v <;> rfl
  · cases truthy v <;> rfl
  · cases truthy v <;> rfl
  · intro k
    rw [k]
    rfl

/-- The color step, with what it leaves untouched. -/
theorem setColor_frame {v : JSVal} (o : Offer) (h : (truthy v && !withinText 50 v) = false) :
    ∃ o1, setColor v o = .ok o1 ∧
      o1.product_name = o.product_name ∧
      o1.product_description = o.product_description ∧
      o1.product_price = o.product_price ∧
      (truthy v = false → o1.product_details = o.product_details) := by
  refine ⟨_, setColor_of_rule o h, ?_, ?_, ?_, ?_⟩
  · cases truthy v <;> rfl
  · cases truthy v <;> rfl
  · cases truthy v <;> rfl
  · intro k
    rw [k]
    rfl

/-- A falsy city is skipped. -/
theorem setCity_of_falsy {v : JSVal} (o : Offer) (h : truthy v = false) :
    setCity v o = .ok o := by
  unfold setCity
  rw [h]
  rfl

/-- A value that reads as a number below 0 is truthy. -/
theorem truthy_of_negative {v : JSVal} {q : ℚ} (h : toNumber v = .fin q) (hq : q < 0) :
    truthy v = true := by
  cases v with
  | undefined => cases h
  | null =>
    have h0 : (0 : ℚ) = q := JSNum.fin.inj h
    rw [← h0] at hq
    exact absurd hq (lt_irrefl 0)
  | bool b =>
    have h0 : (if b then (1 : ℚ) else 0) = q := JSNum.fin.inj h
    cases b
    · rw [← h0] at hq
      exact absurd hq (by decide)
    · rfl
  | num x =>
    have hx : x = .fin q := h
    rw [hx]
    show (q != 0) = true
    simp [ne_of_lt hq]
  | str s =>
    show (s != "") = true
    by_cases hs : s = ""
    · rw [hs] at h
      have h0 : (0 : ℚ) = q := JSNum.fin.inj h
      rw [← h0] at hq
      exact absurd hq (lt_irrefl 0)
    · simp [hs]
  | object prim => rfl

/-- A value that reads as a number below 0 is within the rule of the price. -/
theorem withinPrice_of_negative {v : JSVal} {q : ℚ} (h : toNumber v = .fin q) (hq : q < 0) :
    withinPrice v = true := by
  unfold withinPrice
  rw [h]
  exact decide_eq_true (le_trans (le_of_lt hq) (by norm_num))

/-- When no truthy field among the first seven breaks its rule and the city is falsy, the
field checks pass: every truthy field is written to its slot and every falsy field leaves
its slot as it was. -/
theorem applyFields_of_rules {body : Fields} (o : Offer) (h : breaksRule body = false)
    (hcity : truthy (body.get "city") = false) :
    ∃ o1, applyFields body o = .ok o1 ∧
      o1.product_name =
        (if truthy (body.get "title") then body.get "title" else o.product_name) ∧
      o1.product_description =
        (if truthy (body.get "description") then body.get "description"
          else o.product_description) ∧
      o1.product_price =
        (if truthy (body.get "price") then body.get "price" else o.product_price) ∧
      (truthy (body.get "brand") = false → truthy (body.get "size") = false →
        truthy (body.get "condition") = false → truthy (body.get "color") = false →
        o1.product_details = o.product_details) := by
  unfold breaksRule at h
  simp only [Bool.or_eq_false_iff] at h
  obtain ⟨⟨⟨⟨⟨⟨h1, h2⟩, h3⟩, h4⟩, h5⟩, h6⟩, h7⟩ := h
  obtain ⟨o1, e1, a1, b1, c1, d1⟩ := setTitle_frame o h1
  obtain ⟨o2, e2, a2, b2, c2, d2⟩ := setDescription_frame o1 h2
  obtain ⟨o3, e3, a3, b3, c3, d3⟩ := setPrice_frame o2 h3
  obtain ⟨o4, e4, a4, b4, c4, d4⟩ := setBrand_frame o3 h4
  obtain ⟨o5, e5, a5, b5, c5, d5⟩ := setSize_frame o4 h5
  obtain ⟨o6, e6, a6, b6, c6, d6⟩ := setCondition_frame o5 h6
  obtain ⟨o7, e7, a7, b7, c7, d7⟩ := setColor_frame o6 h7
  refine ⟨o7, ?_, ?_, ?_, ?_, ?_⟩
  · unfold applyFields
    rw [e1]
    show (setDescription _ o1 >>= _) = _
    rw [e2]
    show (setPrice _ o2 >>= _) = _
    rw [e3]
    show (setBrand _ o3 >>= _) = _
    rw [e4]
    show (setSize _ o4 >>= _) = _
    rw [e5]
    show (setCondition _ o5 >>= _) = _
    rw [e6]
    show (setColor _ o6 >>= _) = _
    rw [e7]
    exact setCity_of_falsy o7 hcity
  · rw [a7, a6, a5, a4, a3, a2, a1]
  · rw [b7, b6, b5, b4, b3, b2, b1]
  · rw [c7, c6, c5, c4, c3, c2, c1]
  · intro k4 k5 k6 k7
    rw [d7 k7, d6 k6, d5 k5, d4 k4, d3, d2, d1]

/-- Once the field checks have passed, the update runs the files, saves the record and
answers 200. -/
theorem updateOwned_of_fields {o o1 : Offer} {body : Fields} {files : ReqFiles} {w : World}
    {tr : List Op} (h : applyFields body o = .ok o1) :
    updateOwned o body files w tr =
      Prog.andThen (updateFiles o1 files) (fun o2 =>
        Prog.andThen (Prog.call (.offerSave o2) (fun w tr => w.offerSave tr o2))
          (fun _ => Prog.ret ⟨200, .offer o2⟩)) w tr := by
  unfold updateOwned
  rw [h]
  rfl

/-- Once the field checks have passed, the response is 200, or 500 when a call throws. -/
theorem handler_updateOwned_of_fields {o o1 : Offer} {body : Fields} (files : ReqFiles)
    (w : World) (tr : List Op) (h : applyFields body o = .ok o1) :
    let r := (match updateOwned o body files w tr with
      | (.ok response, tr1) => (response, tr1)
      | (.error e, tr1) => ((⟨500, .message e⟩ : Response), tr1)).1
    r.status = 200 ∨ r.status = 500 := by
  rcases hrun : updateOwned o body files w tr with ⟨res, tr1⟩
  cases res with
  | error e => exact Or.inr rfl
  | ok r =>
    left
    rw [updateOwned_of_fields h] at hrun
    obtain ⟨o2, tr2, -, hrun⟩ := Prog.andThen_ok hrun
    obtain ⟨_, tr3, -, hrun⟩ := Prog.andThen_ok hrun
    rw [Prog.ret_apply] at hrun
    cases hrun
    rfl

/-- Without files, an update whose field checks have passed issues the save and nothing
else. -/
theorem updateOwned_without_files {o o1 : Offer} {body : Fields} {files : ReqFiles}
    (w : World) (tr : List Op) (h : applyFields body o = .ok o1)
    (hfiles : files = .undefined ∨ files = .null) :
    updateOwned o body files w tr =
      Prog.andThen (Prog.call (.offerSave o1) (fun w tr => w.offerSave tr o1))
        (fun _ => Prog.ret ⟨200, .offer o1⟩) w tr := by
  rw [updateOwned_of_fields h]
  rcases hfiles with k | k <;> rw [k] <;> rfl

theorem Prog.tryCatch_apply {α : Type} (x : Prog α) (h : String → Prog α) (w : World)
    (tr : List Op) :
    Prog.tryCatch x h w tr =
      match x w tr with
      | (.ok a, tr1) => (.ok a, tr1)
      | (.error e, tr1) => h e w tr1 := rfl

/-- Deleting an asset without uploading: one `destroy` call; the function returns
`undefined` when the call succeeds. -/
theorem deleteCreateFiles_destroy_ok {id : String} {w : World} {tr : List Op}
    (hid : id ≠ "") (h : w.destroy tr id = .ok ()) :
    deleteCreateFiles none (some id) w tr = (.ok none, tr ++ [.destroy id]) := by
  unfold deleteCreateFiles
  rw [Prog.tryCatch_apply]
  simp only [idTruthy, bne_iff_ne, ne_eq, hid, not_false_eq_true, if_true, Prog.bind_eq,
    Prog.pure_eq]
  rw [Prog.call_andThen_ok h]
  rfl

/-- Deleting an asset without uploading: when the `destroy` call fails, so does the
function. -/
theorem deleteCreateFiles_destroy_error {id : String} {w : World} {tr : List Op} {e : String}
    (hid : id ≠ "") (h : w.destroy tr id = .error e) :
    deleteCreateFiles none (some id) w tr =
      (.error "res is not defined", tr ++ [.destroy id]) := by
  unfold deleteCreateFiles
  rw [Prog.tryCatch_apply]
  simp only [idTruthy, bne_iff_ne, ne_eq, hid, not_false_eq_true, if_true, Prog.bind_eq,
    Prog.pure_eq]
  rw [Prog.call_andThen_error h]
  rfl

/-- Appending the same salt to two passwords gives the same text only for equal passwords. -/
theorem append_salt_cancel {p q s : String} (h : q ++ s = p ++ s) : q = p := by
  have hd : (q ++ s).data = (p ++ s).data := congrArg String.data h
  rw [String.data_append, String.data_append] at hd
  exact String.ext (List.append_cancel_right hd)

/-- The handler of `POST /user/login` when the account exists and the body holds two
strings: 200 with the token when the digests agree, 400 otherwise. -/
theorem login_found {w : World} {email password : String} {u : User}
    (hfind : w.userFindOne [] (.str email) = .ok (some u)) :
    login [("email", .str email), ("password", .str password)] w =
      if hashToTest w (.str password) u.salt = u.hash then
        (⟨200, .session u.token u.username⟩, [.userFindOne (.str email)])
      else (⟨400, .message "Wrong password."⟩, [.userFindOne (.str email)]) := by
  unfold login handler
  have he : Fields.get [("email", JSVal.str email), ("password", .str password)] "email"
      = .str email := by
    simp [Fields.get, List.lookup]
  have hp : Fields.get [("email", JSVal.str email), ("password", .str password)] "password"
      = .str password := by
    simp [Fields.get, List.lookup]
  simp only [he, hp, Prog.bind_eq]
  rw [Prog.call_andThen_ok hfind]
  by_cases hh : hashToTest w (.str password) u.salt = u.hash
  · simp [hh, typeOf, Prog.pure_eq, Prog.ret, Prog.andThen_apply, Prog.world_apply]
  · simp [hh, typeOf, Prog.pure_eq, Prog.ret, Prog.andThen_apply, Prog.world_apply]

theorem Prog.settle_apply {α : Type} (x : Prog α) (w : World) (tr : List Op) :
    Prog.settle x w tr = (.ok (x w tr).1, (x w tr).2) := rfl

/-- Uploading a file without deleting: one `upload` call, whose answer is returned. -/
theorem deleteCreateFiles_upload_ok {file : File} {w : World} {tr : List Op} {a : Asset}
    (h : w.upload tr (convertToBase64 file) = .ok a) :
    deleteCreateFiles (some file) none w tr =
      (.ok (some a), tr ++ [.upload (convertToBase64 file)]) := by
  unfold deleteCreateFiles
  rw [Prog.tryCatch_apply]
  simp only [Prog.bind_eq, Prog.pure_eq]
  rw [Prog.andThen_of_ok (Prog.ret_apply _ _ _), Prog.call_andThen_ok h]
  rfl

/-- The second step of `createFolder` when the folder list came back and the call
succeeds: the folder is created (the name test never holds). -/
theorem createFolderEnsure_ok {Id : ObjectId} {root : String} (folders : List String)
    {w : World} {tr : List Op}
    (hcf : w.create_folder tr (root ++ "/" ++ Id.hex) = .ok ()) :
    createFolderEnsure Id root (.ok folders) w tr =
      (.ok (.ok ()), tr ++ [.create_folder (root ++ "/" ++ Id.hex)]) := by
  unfold createFolderEnsure
  rw [Prog.settle_apply]
  have hany : (folders.any fun name => folderNameIs name Id) = false := by
    simp [folderNameIs]
  simp only [Prog.bind_eq, Prog.pure_eq]
  rw [Prog.andThen_of_ok (Prog.ret_apply _ _ _), if_pos (by rw [hany]; rfl),
    Prog.call_apply, hcf]

/-- The last step of `createFolder` when the earlier steps and the call succeed. -/
theorem createFolderMove_ok {Id : ObjectId} {pid root : String} {w : World} {tr : List Op}
    {a : Asset} (hrn : w.rename tr pid (root ++ "/" ++ Id.hex ++ "/" ++ pid) = .ok a) :
    createFolderMove Id pid root (.ok ()) w tr =
      (.ok (some a), tr ++ [.rename pid (root ++ "/" ++ Id.hex ++ "/" ++ pid)]) := by
  unfold createFolderMove
  rw [Prog.tryCatch_apply]
  simp only [Prog.bind_eq, Prog.pure_eq]
  rw [Prog.andThen_of_ok (Prog.ret_apply _ _ _), Prog.call_andThen_ok hrn]
  rfl

/-- The second part of `createFolder` when the folder list came back and the two calls
succeed: the folder is created (the name test never holds) and the asset renamed. -/
theorem createFolderResume_ok {Id : ObjectId} {pid root : String} (folders : List String)
    {w : World} {tr : List Op} {a : Asset}
    (hcf : w.create_folder tr (root ++ "/" ++ Id.hex) = .ok ())
    (hrn : w.rename (tr ++ [.create_folder (root ++ "/" ++ Id.hex)]) pid
      (root ++ "/" ++ Id.hex ++ "/" ++ pid) = .ok a) :
    createFolderResume Id pid root (.ok folders) w tr =
      (.ok (some a), tr ++ [.create_folder (root ++ "/" ++ Id.hex)] ++
        [.rename pid (root ++ "/" ++ Id.hex ++ "/" ++ pid)]) := by
  unfold createFolderResume
  rw [Prog.bind_eq, Prog.andThen_of_ok (createFolderEnsure_ok folders hcf),
    createFolderMove_ok hrn]

/-- The function `createFolder` when its three calls succeed. -/
theorem createFolder_ok (Id : ObjectId) {pid root : String} {folders : List String}
    {w : World} {tr : List Op} {a : Asset}
    (hsf : w.sub_folders tr root = .ok folders)
    (hcf : w.create_folder (tr ++ [.sub_folders root]) (root ++ "/" ++ Id.hex) = .ok ())
    (hrn : w.rename (tr ++ [.sub_folders root] ++ [.create_folder (root ++ "/" ++ Id.hex)]) pid
      (root ++ "/" ++ Id.hex ++ "/" ++ pid) = .ok a) :
    createFolder Id pid root w tr =
      (.ok (some a), tr ++ [.sub_folders root] ++ [.create_folder (root ++ "/" ++ Id.hex)] ++
        [.rename pid (root ++ "/" ++ Id.hex ++ "/" ++ pid)]) := by
  unfold createFolder
  rw [Prog.bind_eq]
  have hstart : subFoldersReply root w tr = (.ok (.ok folders), tr ++ [.sub_folders root]) := by
    unfold subFoldersReply
    rw [Prog.settle_apply, Prog.call_apply, hsf]
  rw [Prog.andThen_of_ok hstart, createFolderResume_ok folders hcf hrn]

theorem Prog.mapSeq_nil {α β : Type} (f : α → Prog β) (w : World) (tr : List Op) :
    Prog.mapSeq f [] w tr = (.ok [], tr) := rfl

theorem Prog.mapSeq_cons_ok {α β : Type} (f : α → Prog β) {a : α} {as : List α} {w : World}
    {tr tr1 tr2 : List Op} {b : β} {bs : List β} (h1 : f a w tr = (.ok b, tr1))
    (h2 : Prog.mapSeq f as w tr1 = (.ok bs, tr2)) :
    Prog.mapSeq f (a :: as) w tr = (.ok (b :: bs), tr2) := by
  show Prog.andThen (f a) (fun b => Prog.andThen (Prog.mapSeq f as) (fun bs => Prog.ret (b :: bs)))
    w tr = _
  rw [Prog.andThen_of_ok h1, Prog.andThen_of_ok h2]
  rfl

/-- Awaiting promises that all resolved gives their values. -/
theorem Prog.joinAll_ok {α : Type} (l : List α) (w : World) (tr : List Op) :
    Prog.joinAll (l.map (fun a => (Except.ok a : Except String α))) w tr = (.ok l, tr) := by
  induction l with
  | nil => rfl
  | cons a l ih =>
    show Prog.andThen (Prog.joinAll (l.map fun a => (Except.ok a : Except String α)))
      (fun as => Prog.ret (a :: as)) w tr = _
    rw [Prog.andThen_of_ok ih]
    rfl

/-- The uploads of the additional pictures: one `upload` call per picture, in order, and
the descriptors answered, in the same order. -/
theorem uploadAll_ok {w : World} {up : List Op → String → Asset}
    (hup : ∀ tr uri, w.upload tr uri = .ok (up tr uri)) (pictures : List File)
    (tr : List Op) :
    uploadAll pictures none w tr =
      (.ok ((uploadReplies up tr pictures).map some), tr ++ uploadOps pictures) := by
  have hmap : ∀ (ps : List File) (tr : List Op),
      Prog.mapSeq (fun p => Prog.settle (deleteCreateFiles (some p) none)) ps w tr =
        (.ok (((uploadReplies up tr ps).map some).map
          (fun a => (Except.ok a : Except String (Option Asset)))), tr ++ uploadOps ps) := by
    intro ps
    induction ps with
    | nil =>
      intro tr
      rw [Prog.mapSeq_nil]
      simp [uploadReplies, uploadOps]
    | cons p ps ih =>
      intro tr
      have h1 : Prog.settle (deleteCreateFiles (some p) none) w tr =
          (.ok (.ok (some (up tr (convertToBase64 p)))),
            tr ++ [.upload (convertToBase64 p)]) := by
        rw [Prog.settle_apply, deleteCreateFiles_upload_ok (hup tr (convertToBase64 p))]
      rw [Prog.mapSeq_cons_ok (fun p => Prog.settle (deleteCreateFiles (some p) none)) h1 (ih _)]
      simp [uploadReplies, uploadOps]
  unfold uploadAll
  rw [Prog.bind_eq, Prog.andThen_of_ok (hmap pictures tr), Prog.joinAll_ok]

/-- The relocation of uploaded pictures when the asset store answers every call: the
calls issued are every `sub_folders`, every `create_folder`, then the renames in the order
of the pictures, and the result holds the answers to these renames, in that order. -/
theorem createFolderAll_ok {w : World} {up : List Op → String → Asset}
    {rn : List Op → String → String → Asset} (hok : AssetStoreOk w up rn) (Id : ObjectId)
    (root : String) (assets : List Asset) (tr : List Op) :
    createFolderAll Id (assets.map some) root w tr =
      (.ok ((renameReplies rn Id root
          (tr ++ subFolderOps root assets.length ++ createFolderOps Id root assets.length)
          assets).map some),
        tr ++ subFolderOps root assets.length ++ createFolderOps Id root assets.length ++
          renameOps Id root assets) := by
  have hstart : ∀ (as : List Asset) (tr : List Op), ∃ started,
      Prog.mapSeq (fun picture => do
          let pid ← publicIdOf picture
          let reply ← subFoldersReply root
          pure (pid, reply)) (as.map some) w tr =
        (.ok started, tr ++ subFolderOps root as.length) ∧
      started.map Prod.fst = as.map Asset.public_id ∧
      ∀ pr ∈ started, ∃ folders, pr.2 = .ok folders := by
    intro as
    induction as with
    | nil =>
      intro tr
      exact ⟨[], by simp [subFolderOps, Prog.mapSeq_nil], rfl, by simp⟩
    | cons a as ih =>
      intro tr
      obtain ⟨folders, hsf⟩ := hok.sub_folders_ok tr root
      obtain ⟨started, hrun, hfst, hall⟩ := ih (tr ++ [.sub_folders root])
      refine ⟨(a.public_id, .ok folders) :: started, ?_, ?_, ?_⟩
      · have h1 : (do
            let pid ← publicIdOf (some a)
            let reply ← subFoldersReply root
            pure (pid, reply) : Prog _) w tr =
            (.ok (a.public_id, .ok folders), tr ++ [.sub_folders root]) := by
          simp only [Prog.bind_eq, Prog.pure_eq, publicIdOf]
          rw [Prog.andThen_of_ok (Prog.ret_apply _ _ _)]
          unfold subFoldersReply
          rw [Prog.andThen_apply, Prog.settle_apply, Prog.call_apply, hsf]
          rfl
        have h2 := Prog.mapSeq_cons_ok (fun picture => (do
            let pid ← publicIdOf picture
            let reply ← subFoldersReply root
            pure (pid, reply) : Prog (String × Except String (List String)))) h1 hrun
        rw [List.map_cons, h2]
        simp [subFolderOps, List.replicate_succ]
      · simp [hfst]
      · intro pr hpr
        rcases List.mem_cons.mp hpr with rfl | hmem
        · exact ⟨folders, rfl⟩
        · exact hall pr hmem
  have hensure : ∀ (started : List (String × Except String (List String))),
      (∀ pr ∈ started, ∃ folders, pr.2 = .ok folders) → ∀ (tr : List Op),
      Prog.mapSeq (fun (pr : String × Except String (List String)) => do
          let outcome ← createFolderEnsure Id root pr.2
          pure (pr.1, outcome)) started w tr =
        (.ok (started.map (fun pr => (pr.1, (Except.ok () : Except String Unit)))),
          tr ++ createFolderOps Id root started.length) := by
    intro started
    induction started with
    | nil =>
      intro _ tr
      simp [createFolderOps, Prog.mapSeq_nil]
    | cons pr started ih =>
      intro hall tr
      obtain ⟨folders, hfold⟩ := hall pr (List.mem_cons_self _ _)
      have h1 : (do
          let outcome ← createFolderEnsure Id root pr.2
          pure (pr.1, outcome) : Prog _) w tr =
          (.ok (pr.1, (Except.ok () : Except String Unit)),
            tr ++ [.create_folder (root ++ "/" ++ Id.hex)]) := by
        simp only [Prog.bind_eq, Prog.pure_eq]
        rw [hfold, Prog.andThen_of_ok (createFolderEnsure_ok folders
          (hok.create_folder_ok tr _))]
        rfl
      have h2 := Prog.mapSeq_cons_ok
        (fun (pr : String × Except String (List String)) => (do
          let outcome ← createFolderEnsure Id root pr.2
          pure (pr.1, outcome) : Prog (String × Except String Unit))) h1
        (ih (fun q hq => hall q (List.mem_cons_of_mem _ hq))
          (tr ++ [.create_folder (root ++ "/" ++ Id.hex)]))
      rw [h2]
      simp [createFolderOps, List.replicate_succ]
  have hmove : ∀ (as : List Asset) (tr : List Op),
      Prog.mapSeq (fun (pr : String × Except String Unit) =>
          createFolderMove Id pr.1 root pr.2)
        (as.map (fun a => (a.public_id, (Except.ok () : Except String Unit)))) w tr =
        (.ok ((renameReplies rn Id root tr as).map some), tr ++ renameOps Id root as) := by
    intro as
    induction as with
    | nil =>
      intro tr
      simp [renameReplies, renameOps, Prog.mapSeq_nil]
    | cons a as ih =>
      intro tr
      have h1 : createFolderMove Id (a.public_id, (Except.ok () : Except String Unit)).1 root
          (a.public_id, (Except.ok () : Except String Unit)).2 w tr =
          (.ok (some (rn tr a.public_id (root ++ "/" ++ Id.hex ++ "/" ++ a.public_id))),
            tr ++ [.rename a.public_id (root ++ "/" ++ Id.hex ++ "/" ++ a.public_id)]) :=
        createFolderMove_ok (hok.rename_ok tr a.public_id
          (root ++ "/" ++ Id.hex ++ "/" ++ a.public_id))
      have h2 := Prog.mapSeq_cons_ok (fun (pr : String × Except String Unit) =>
          createFolderMove Id pr.1 root pr.2) h1 (ih _)
      rw [List.map_cons, h2]
      simp [renameReplies, renameOps]
  obtain ⟨started, hrun1, hfst, hall⟩ := hstart assets tr
  have hlen : started.length = assets.length := by
    have := congrArg List.length hfst
    simpa using this
  have hpairs : started.map (fun pr => (pr.1, (Except.ok () : Except String Unit))) =
      assets.map (fun a => (a.public_id, (Except.ok () : Except String Unit))) := by
    have : started.map (fun pr => (pr.1, (Except.ok () : Except String Unit))) =
        (started.map Prod.fst).map (fun pid => (pid, (Except.ok () : Except String Unit))) := by
      simp
    rw [this, hfst]
    simp
  unfold createFolderAll
  rw [Prog.bind_eq, Prog.andThen_of_ok hrun1, Prog.bind_eq,
    Prog.andThen_of_ok (hensure started hall _), hpairs, hlen, hmove]

/-- The descriptor answered to the rename of the asset of index `i`: the answer of the
store after the renames of the assets before it. -/
theorem renameReplies_getElem? (rn : List Op → String → String → Asset) (Id : ObjectId)
    (root : String) (assets : List Asset) :
    ∀ (tr : List Op) (i : Nat), (renameReplies rn Id root tr assets)[i]? =
      (assets[i]?).map (fun a => rn (tr ++ renameOps Id root (assets.take i)) a.public_id
        (root ++ "/" ++ Id.hex ++ "/" ++ a.public_id)) := by
  induction assets with
  | nil => intro tr i; simp [renameReplies]
  | cons a as ih =>
    intro tr i
    cases i with
    | zero => simp [renameReplies, renameOps]
    | succ i =>
      simp only [renameReplies, List.getElem?_cons_succ, List.take_succ_cons]
      rw [ih]
      simp [renameOps]

theorem renameReplies_length (rn : List Op → String → String → Asset) (Id : ObjectId)
    (root : String) (assets : List Asset) :
    ∀ tr : List Op, (renameReplies rn Id root tr assets).length = assets.length := by
  induction assets with
  | nil => intro tr; rfl
  | cons a as ih => intro tr; simp [renameReplies, ih]

/-- The descriptor answered to the upload of the picture of index `i`: the answer of the
store after the uploads of the pictures before it. -/
theorem uploadReplies_getElem? (up : List Op → String → Asset) (pictures : List File) :
    ∀ (tr : List Op) (i : Nat), (uploadReplies up tr pictures)[i]? =
      (pictures[i]?).map
        (fun p => up (tr ++ uploadOps (pictures.take i)) (convertToBase64 p)) := by
  induction pictures with
  | nil => intro tr i; simp [uploadReplies]
  | cons p ps ih =>
    intro tr i
    cases i with
    | zero => simp [uploadReplies, uploadOps]
    | succ i =>
      simp only [uploadReplies, List.getElem?_cons_succ, List.take_succ_cons]
      rw [ih]
      simp [uploadOps]

theorem uploadReplies_length (up : List Op → String → Asset) (pictures : List File) :
    ∀ tr : List Op, (uploadReplies up tr pictures).length = pictures.length := by
  induction pictures with
  | nil => intro tr; rfl
  | cons p ps ih => intro tr; simp [uploadReplies, ih]

/-- Lines 125-145 when the asset store answers every call: the pictures are uploaded, then
moved, and the descriptors stored are the answers to the renames, in order. -/
theorem publishPictures_many_ok {w : World} {up : List Op → String → Asset}
    {rn : List Op → String → String → Asset} (hok : AssetStoreOk w up rn) (o : Offer)
    (pictures : List File) (tr : List Op) :
    publishPictures o (some (.many pictures)) w tr =
      (.ok { o with product_pictures := (renameReplies rn o._id offerFolderRootPath
          (tr ++ uploadOps pictures ++ subFolderOps offerFolderRootPath pictures.length ++
            createFolderOps o._id offerFolderRootPath pictures.length)
          (uploadReplies up tr pictures)).map some },
        tr ++ uploadOps pictures ++ subFolderOps offerFolderRootPath pictures.length ++
          createFolderOps o._id offerFolderRootPath pictures.length ++
          renameOps o._id offerFolderRootPath (uploadReplies up tr pictures)) := by
  have hrun := createFolderAll_ok hok o._id offerFolderRootPath
    (uploadReplies up tr pictures) (tr ++ uploadOps pictures)
  rw [uploadReplies_length] at hrun
  unfold publishPictures
  simp only [Prog.bind_eq, Prog.pure_eq]
  rw [Prog.andThen_of_ok (uploadAll_ok hok.upload_ok pictures tr), Prog.andThen_of_ok hrun]
  rfl

/-- The end of a publish request: the offer is saved, then populated; the response is 200
with the offer, or 500 when one of the two calls fails. -/
theorem publish_tail (o : Offer) (w : World) (tr : List Op) :
    ∃ r tr1, (match (do
        Prog.call (.offerSave o) (fun w tr => w.offerSave tr o)
        Prog.call (.offerPopulate o) (fun w tr => w.offerPopulate tr o)
        pure (⟨200, .offer o⟩ : Response) : Prog Response) w tr with
      | (.ok response, tr2) => (response, tr2)
      | (.error e, tr2) => ((⟨500, .message e⟩ : Response), tr2)) =
        (r, tr ++ [.offerSave o] ++ tr1) ∧
      (tr1 = [] ∨ tr1 = [.offerPopulate o]) ∧
      (r = ⟨200, .offer o⟩ ∨ r.status = 500) := by
  simp only [Prog.bind_eq, Prog.pure_eq]
  cases hs : w.offerSave tr o with
  | error e =>
    refine ⟨⟨500, .message e⟩, [], ?_, Or.inl rfl, Or.inr rfl⟩
    rw [Prog.call_andThen_error hs]
    simp
  | ok u =>
    rw [Prog.call_andThen_ok hs]
    cases hp : w.offerPopulate (tr ++ [.offerSave o]) o with
    | error e =>
      refine ⟨⟨500, .message e⟩, [.offerPopulate o], ?_, Or.inr rfl, Or.inr rfl⟩
      rw [Prog.call_andThen_error hp]
    | ok u2 =>
      refine ⟨⟨200, .offer o⟩, [.offerPopulate o], ?_, Or.inr rfl, Or.inl rfl⟩
      rw [Prog.call_andThen_ok hp]
      rfl

/-- The avatar step of a signup leaves the email of the account untouched. -/
theorem signupAvatar_email {u u1 : User} {files : Option AvatarFiles} {w : World}
    {tr tr1 : List Op} (h : signupAvatar u files w tr = (.ok u1, tr1)) : u1.email = u.email := by
  unfold signupAvatar at h
  cases files with
  | none =>
    simp only [Prog.pure_eq, Prog.ret_apply, Prod.mk.injEq, Except.ok.injEq] at h
    rw [← h.1]
  | some f =>
    simp only [Prog.bind_eq, Prog.pure_eq] at h
    obtain ⟨_, _, -, h⟩ := Prog.andThen_ok h
    obtain ⟨_, _, -, h⟩ := Prog.andThen_ok h
    obtain ⟨_, _, -, h⟩ := Prog.andThen_ok h
    obtain ⟨_, _, -, h⟩ := Prog.andThen_ok h
    simp only [Prog.ret_apply, Prod.mk.injEq, Except.ok.injEq] at h
    rw [← h.1]

/-- When the creation of an account returns, the response is 201 and the last call issued
is the save of an account holding the email of the request. -/
theorem signupCreate_ok {username email password : JSVal} {files : Option AvatarFiles}
    {w : World} {tr tr2 : List Op} {r : Response}
    (h : signupCreate username email password files w tr = (.ok r, tr2)) :
    r.status = 201 ∧
    ∃ created tr1, tr2 = tr1 ++ [.userSave created] ∧ created.email = jsToString email := by
  unfold signupCreate at h
  simp only [Prog.bind_eq, Prog.pure_eq] at h
  obtain ⟨w1, tr0, hw, h⟩ := Prog.andThen_ok h
  obtain ⟨created, tr1, hav, h⟩ := Prog.andThen_ok h
  obtain ⟨_, tr3, hsave, h⟩ := Prog.andThen_ok h
  rw [Prog.call_apply] at hsave
  simp only [Prog.ret_apply, Prod.mk.injEq, Except.ok.injEq] at h
  simp only [Prod.mk.injEq] at hsave
  refine ⟨by rw [← h.1], created, tr1, ?_, signupAvatar_email hav⟩
  rw [← h.2, ← hsave.2]

/-- The checks of a signup whose three fields are strings, whose email has the expected
format and for which the lookup found an account: the 409 response, and no call. -/
theorem signupChecks_duplicate {username email password : String}
    (files : Option AvatarFiles) (u : User) (w : World) (tr : List Op)
    (hformat : emailFormatInvalid email = false) :
    signupChecks (.str username) (.str email) (.str password) files (some u) w tr =
      (.ok ⟨409, .message "This email already has an account"⟩, tr) := by
  unfold signupChecks
  rw [if_neg (by simp [typeOf]), if_neg (by simp [jsToString, hformat]), if_pos (by simp)]
  rfl

/-- When the checks of a signup return a 201 response, the email passed the format check
and the last call issued is the save of an account holding it. -/
theorem signupChecks_created {username password : JSVal} {email : String}
    {files : Option AvatarFiles} {userDoc : Option User} {w : World} {tr tr2 : List Op}
    {r : Response}
    (h : signupChecks username (.str email) password files userDoc w tr = (.ok r, tr2))
    (hr : r.status = 201) :
    emailFormatInvalid email = false ∧
    ∃ created tr1, tr2 = tr1 ++ [.userSave created] ∧ created.email = email := by
  unfold signupChecks at h
  by_cases c1 : (username == .undefined || JSVal.str email == .undefined ||
      password == .undefined || typeOf username != "string" ||
      typeOf (JSVal.str email) != "string" || typeOf password != "string") = true
  · rw [if_pos c1] at h
    simp only [Prog.pure_eq, Prog.ret_apply, Prod.mk.injEq, Except.ok.injEq] at h
    rw [← h.1] at hr
    exact absurd hr (by decide)
  rw [if_neg c1] at h
  by_cases c2 : emailFormatInvalid (jsToString (.str email)) = true
  · rw [if_pos c2] at h
    simp only [Prog.pure_eq, Prog.ret_apply, Prod.mk.injEq, Except.ok.injEq] at h
    rw [← h.1] at hr
    exact absurd hr (by decide)
  rw [if_neg c2] at h
  by_cases c3 : (userDoc != none) = true
  · rw [if_pos c3] at h
    simp only [Prog.pure_eq, Prog.ret_apply, Prod.mk.injEq, Except.ok.injEq] at h
    rw [← h.1] at hr
    exact absurd hr (by decide)
  rw [if_neg c3] at h
  obtain ⟨-, created, tr1, htr, hc⟩ := signupCreate_ok h
  exact ⟨by simpa [jsToString] using c2, created, tr1, htr, hc⟩

/-- A signup answered 201 went through the format check of the email and issued the save
of an account holding that email. -/
theorem signup_created {body : Fields} {files : Option AvatarFiles} {w : World}
    {email : String} (hemail : body.get "email" = .str email)
    (h : (signup body files w).1.status = 201) :
    emailFormatInvalid email = false ∧
    ∃ created, Op.userSave created ∈ (signup body files w).2 ∧ created.email = email := by
  unfold signup handler at h ⊢
  simp only [Prog.bind_eq, hemail] at h ⊢
  cases hfind : w.userFindOne [] (.str email) with
  | error e =>
    rw [Prog.call_andThen_error hfind] at h
    have h500 : (500 : Nat) = 201 := h
    exact absurd h500 (by decide)
  | ok userDoc =>
    rw [Prog.call_andThen_ok hfind] at h ⊢
    rcases hrun : signupChecks (body.get "username") (.str email) (body.get "password")
      files userDoc w ([] ++ [.userFindOne (.str email)]) with ⟨res, tr2⟩
    rw [hrun] at h ⊢
    cases res with
    | error e =>
      have h500 : (500 : Nat) = 201 := h
      exact absurd h500 (by decide)
    | ok r =>
      obtain ⟨hformat, created, tr1, htr, hc⟩ := signupChecks_created hrun h
      refine ⟨hformat, created, ?_, hc⟩
      show Op.userSave created ∈ tr2
      rw [htr]
      simp

/-- The avatar step of a signup leaves the salt and the digest of the account untouched. -/
theorem signupAvatar_credentials {u u1 : User} {files : Option AvatarFiles} {w : World}
    {tr tr1 : List Op} (h : signupAvatar u files w tr = (.ok u1, tr1)) :
    u1.salt = u.salt ∧ u1.hash = u.hash := by
  unfold signupAvatar at h
  cases files with
  | none =>
    simp only [Prog.pure_eq, Prog.ret_apply, Prod.mk.injEq, Except.ok.injEq] at h
    rw [← h.1]
    exact ⟨rfl, rfl⟩
  | some f =>
    simp only [Prog.bind_eq, Prog.pure_eq] at h
    obtain ⟨_, _, -, h⟩ := Prog.andThen_ok h
    obtain ⟨_, _, -, h⟩ := Prog.andThen_ok h
    obtain ⟨_, _, -, h⟩ := Prog.andThen_ok h
    obtain ⟨_, _, -, h⟩ := Prog.andThen_ok h
    simp only [Prog.ret_apply, Prod.mk.injEq, Except.ok.injEq] at h
    rw [← h.1]
    exact ⟨rfl, rfl⟩

/-- When the creation of an account returns, the last call issued is the save of an account
that holds the email of the request, the salt drawn by `uid2(16)` and the digest of the
password of the request followed by that salt. -/
theorem signupCreate_credentials {username email password : JSVal}
    {files : Option AvatarFiles} {w : World} {tr tr2 : List Op} {r : Response}
    (h : signupCreate username email password files w tr = (.ok r, tr2)) :
    ∃ created tr1, tr2 = tr1 ++ [.userSave created] ∧ created.email = jsToString email ∧
      created.salt = w.uid2 16 ∧
      created.hash = hashGenerate w (jsToString password) (w.uid2 16) := by
  unfold signupCreate at h
  simp only [Prog.bind_eq, Prog.pure_eq] at h
  obtain ⟨w1, tr0, hw, h⟩ := Prog.andThen_ok h
  rw [Prog.world_apply] at hw
  simp only [Prod.mk.injEq, Except.ok.injEq] at hw
  obtain ⟨hw1, -⟩ := hw
  subst hw1
  obtain ⟨created, tr1, hav, h⟩ := Prog.andThen_ok h
  obtain ⟨_, tr3, hsave, h⟩ := Prog.andThen_ok h
  rw [Prog.call_apply] at hsave
  simp only [Prog.ret_apply, Prod.mk.injEq, Except.ok.injEq] at h
  simp only [Prod.mk.injEq] at hsave
  refine ⟨created, tr1, ?_, signupAvatar_email hav, (signupAvatar_credentials hav).1,
    (signupAvatar_credentials hav).2⟩
  rw [← h.2, ← hsave.2]

/-- When the checks of a signup return a 201 response, the last call issued is the save of
an account holding the email, a salt and the digest of the password with that salt. -/
theorem signupChecks_credentials {username : JSVal} {email password : String}
    {files : Option AvatarFiles} {userDoc : Option User} {w : World} {tr tr2 : List Op}
    {r : Response}
    (h : signupChecks username (.str email) (.str password) files userDoc w tr = (.ok r, tr2))
    (hr : r.status = 201) :
    ∃ created tr1, tr2 = tr1 ++ [.userSave created] ∧ created.email = email ∧
      created.salt = w.uid2 16 ∧ created.hash = hashGenerate w password (w.uid2 16) := by
  unfold signupChecks at h
  by_cases c1 : (username == .undefined || JSVal.str email == .undefined ||
      JSVal.str password == .undefined || typeOf username != "string" ||
      typeOf (JSVal.str email) != "string" || typeOf (JSVal.str password) != "string") = true
  · rw [if_pos c1] at h
    simp only [Prog.pure_eq, Prog.ret_apply, Prod.mk.injEq, Except.ok.injEq] at h
    rw [← h.1] at hr
    exact absurd hr (by decide)
  rw [if_neg c1] at h
  by_cases c2 : emailFormatInvalid (jsToString (.str email)) = true
  · rw [if_pos c2] at h
    simp only [Prog.pure_eq, Prog.ret_apply, Prod.mk.injEq, Except.ok.injEq] at h
    rw [← h.1] at hr
    exact absurd hr (by decide)
  rw [if_neg c2] at h
  by_cases c3 : (userDoc != none) = true
  · rw [if_pos c3] at h
    simp only [Prog.pure_eq, Prog.ret_apply, Prod.mk.injEq, Except.ok.injEq] at h
    rw [← h.1] at hr
    exact absurd hr (by decide)
  rw [if_neg c3] at h
  exact signupCreate_credentials h

/-- A signup answered 201 ended with the save of an account that holds the email of the
request, the salt drawn by `uid2(16)` and the digest of the password of the request followed
by that salt. -/
theorem signup_credentials {body : Fields} {files : Option AvatarFiles} {w : World}
    {email password : String} (hemail : body.get "email" = .str email)
    (hpassword : body.get "password" = .str password)
    (h : (signup body files w).1.status = 201) :
    ∃ created tr1, (signup body files w).2 = tr1 ++ [.userSave created] ∧
      created.email = email ∧ created.salt = w.uid2 16 ∧
      created.hash = hashGenerate w password (w.uid2 16) := by
  unfold signup handler at h ⊢
  simp only [Prog.bind_eq, hemail, hpassword] at h ⊢
  cases hfind : w.userFindOne [] (.str email) with
  | error e =>
    rw [Prog.call_andThen_error hfind] at h
    have h500 : (500 : Nat) = 201 := h
    exact absurd h500 (by decide)
  | ok userDoc =>
    rw [Prog.call_andThen_ok hfind] at h ⊢
    rcases hrun : signupChecks (body.get "username") (.str email) (.str password)
      files userDoc w ([] ++ [.userFindOne (.str email)]) with ⟨res, tr2⟩
    rw [hrun] at h ⊢
    cases res with
    | error e =>
      have h500 : (500 : Nat) = 201 := h
      exact absurd h500 (by decide)
    | ok r =>
      exact signupChecks_credentials hrun h

/-- Without an identifier to delete and without a file, the helper does nothing and
returns `undefined`. -/
theorem deleteCreateFiles_nothing (w : World) (tr : List Op) :
    deleteCreateFiles none none w tr = (.ok none, tr) := rfl

/-- Uploading a file without deleting, when the `upload` call fails: the helper throws. -/
theorem deleteCreateFiles_upload_error {file : File} {w : World} {tr : List Op} {e : String}
    (h : w.upload tr (convertToBase64 file) = .error e) :
    deleteCreateFiles (some file) none w tr =
      (.error "res is not defined", tr ++ [.upload (convertToBase64 file)]) := by
  unfold deleteCreateFiles
  rw [Prog.tryCatch_apply]
  simp only [Prog.bind_eq, Prog.pure_eq]
  rw [Prog.andThen_of_ok (Prog.ret_apply _ _ _), Prog.call_andThen_error h]
  rfl

/-- An identifier that does not pass `if (fileToDeleteID)` is as good as none. -/
theorem deleteCreateFiles_of_falsy (file : Option File) {id : Option String} (w : World)
    (tr : List Op) (h : idTruthy id = false) :
    deleteCreateFiles file id w tr = deleteCreateFiles file none w tr := by
  cases id with
  | none => rfl
  | some i =>
    unfold deleteCreateFiles
    simp only [h]
    rfl

/-- After a `destroy` call that succeeds, the helper goes on as if it had been given no
identifier. -/
theorem deleteCreateFiles_after_destroy (file : Option File) {i : String} {w : World}
    {tr : List Op} (hi : i ≠ "") (h : w.destroy tr i = .ok ()) :
    deleteCreateFiles file (some i) w tr =
      deleteCreateFiles file none w (tr ++ [.destroy i]) := by
  unfold deleteCreateFiles
  rw [Prog.tryCatch_apply, Prog.tryCatch_apply]
  simp only [idTruthy, bne_iff_ne, ne_eq, hi, not_false_eq_true, if_true, Prog.bind_eq,
    Prog.pure_eq]
  rw [Prog.call_andThen_ok h, Prog.andThen_of_ok (Prog.ret_apply _ _ _)]

/-- When the `destroy` call fails the helper throws at once, whatever the file. -/
theorem deleteCreateFiles_destroy_fails (file : Option File) {i : String} {w : World}
    {tr : List Op} {e : String} (hi : i ≠ "") (h : w.destroy tr i = .error e) :
    deleteCreateFiles file (some i) w tr =
      (.error "res is not defined", tr ++ [.destroy i]) := by
  unfold deleteCreateFiles
  rw [Prog.tryCatch_apply]
  simp only [idTruthy, bne_iff_ne, ne_eq, hi, not_false_eq_true, if_true, Prog.bind_eq,
    Prog.pure_eq]
  rw [Prog.call_andThen_error h]
  rfl

/-! ## The claims -/

/-- C1 (the code departs from the claim). A publish request with a valid title,
description and price and a valid brand, in which size, condition, color and city are
absent, is answered with the 400 validation error, although lines 74-87 give these four
fields a default for that very case. -/
theorem publish_rejects_absent_details (user : User) (files : Files) (w : World) :
    publish user [("title", .str "Jacket"), ("description", .str "Warm"),
      ("price", .str "45"), ("brand", .str "Levis")] files w
      = (⟨400, .message msgMandatory⟩, []) :=
  publish_of_invalid user _ files w (by decide)

/-- C2 as stated fails: a publish request with price -5, sent as the form field `-5` or as
the number -5, and every other field valid passes the validation; the image is uploaded
and moved, and the offer is saved with that price. -/
theorem publish_negative_price_accepted :
    publishInvalid (jacketBody (.str "-5")) = false ∧
    publishInvalid (jacketBody (.num (.fin (-5)))) = false ∧
    publish sampleUser (jacketBody (.num (.fin (-5)))) ⟨some (sampleFile "front"), none⟩
        (sampleWorld none none) =
      (⟨200, .offer (offerRecord (sampleWorld none none) sampleUser
          (jacketBody (.num (.fin (-5))))
          (some ⟨"vinted/offers/65f0c0ffee0123456789abcd/tmp0", "", ""⟩) [])⟩,
       [.upload "data:image/png;base64,AAAA", .sub_folders "vinted/offers",
        .create_folder "vinted/offers/65f0c0ffee0123456789abcd",
        .rename "tmp0" "vinted/offers/65f0c0ffee0123456789abcd/tmp0",
        .offerSave (offerRecord (sampleWorld none none) sampleUser
          (jacketBody (.num (.fin (-5))))
          (some ⟨"vinted/offers/65f0c0ffee0123456789abcd/tmp0", "", ""⟩) []),
        .offerPopulate (offerRecord (sampleWorld none none) sampleUser
          (jacketBody (.num (.fin (-5))))
          (some ⟨"vinted/offers/65f0c0ffee0123456789abcd/tmp0", "", ""⟩) [])]) := by
  decide

/-- C2, amended. A publish request whose price has a numeric value above 100000 (a number
or a string reading as a finite number above 100000, or as `Infinity`) is answered with
the 400 validation error whatever the other fields and files are, and no call is issued to
the asset store or to the record store. No lower bound is enforced: when every other field
is valid, the validation rejects the request exactly when the price does not read as a
number of at most 100000, so that every price below 0 passes it, and the response is then
200, or 500 when a later step fails. -/
theorem publish_price_range (user : User) (body : Fields) (files : Files) (w : World) :
    (valueAbove (body.get "price") 100000 →
      publish user body files w = (⟨400, .message msgMandatory⟩, [])) ∧
    (otherFieldsValid body = true →
      (publishInvalid body = false ↔ withinPrice (body.get "price") = true) ∧
      (∀ q, toNumber (body.get "price") = .fin q → q < 0 →
        publishInvalid body = false ∧
        ((publish user body files w).1.status = 200 ∨
          (publish user body files w).1.status = 500))) := by
  refine ⟨fun habove => ?_, fun hvalid => ⟨?_, fun q hq hneg => ?_⟩⟩
  · apply publish_of_invalid
    have hgt : jsGt (body.get "price") (.num (.fin maxPriceOfferGlobal)) = true :=
      (jsGt_num _ _).mpr habove
    unfold publishInvalid
    simp [hgt]
  · rw [publishInvalid_of_valid_fields body hvalid]
    cases withinPrice (body.get "price") <;> simp
  · have hw : withinPrice (body.get "price") = true := by
      unfold withinPrice
      rw [hq]
      have : q ≤ 100000 := le_trans (le_of_lt hneg) (by norm_num)
      simp [this]
    have hpass : publishInvalid body = false := by
      rw [publishInvalid_of_valid_fields body hvalid, hw]
      rfl
    exact ⟨hpass, publish_valid_status user body files w hpass⟩

theorem publish_price_range_witness :
    publish sampleUser (jacketBody (.str "100000.5")) ⟨some (sampleFile "a"), none⟩
      (sampleWorld none none) = (⟨400, .message msgMandatory⟩, []) ∧
    publishInvalid (jacketBody (.str "-0.5")) = false :=
  ⟨(publish_price_range sampleUser (jacketBody (.str "100000.5"))
      ⟨some (sampleFile "a"), none⟩ (sampleWorld none none)).1
      (Or.inl ⟨mkRat 200001 2, by decide, by decide⟩),
   (((publish_price_range sampleUser (jacketBody (.str "-0.5"))
      ⟨some (sampleFile "a"), none⟩ (sampleWorld none none)).2 (by decide)).2
      (mkRat (-1) 2) (by decide) (by decide)).1⟩

/-- The handler of `PUT /offer/:id` answers the 400 "change at least one information"
rejection exactly when the body has no field and `req.files` is `undefined`; in that case
no call at all is issued. -/
theorem update_rejects_empty_change (user : User) (offerID : String) (body : Fields)
    (files : ReqFiles) (w : World) :
    ((updateOffer user offerID body files w).1 = ⟨400, .message msgNoChange⟩ ↔
      (body = [] ∧ files = .undefined)) ∧
    ((body = [] ∧ files = .undefined) → (updateOffer user offerID body files w).2 = []) := by
  have hempty : (body = [] ∧ files = .undefined) →
      updateOffer user offerID body files w = (⟨400, .message msgNoChange⟩, []) := by
    rintro ⟨rfl, rfl⟩
    rfl
  refine ⟨⟨fun h => ?_, fun h => by rw [hempty h]⟩, fun h => by rw [hempty h]⟩
  by_contra hchange
  have key := updateOffer_cases user offerID body files w hchange
  rw [h] at key
  rcases key with k | k | k | k | k | k
  · exact absurd k (by decide)
  · exact absurd k (by decide)
  · exact absurd k (by decide)
  · rcases k with k | k
    · exact absurd k (by decide)
    · exact absurd k (by decide)
  · exact absurd k (by decide)
  · exact absurd k (by decide)

theorem update_rejects_empty_change_witness :
    updateOffer sampleUser "65f0c0ffee0123456789abcd" [] .undefined
      (sampleWorld (some sampleOffer) none) = (⟨400, .message msgNoChange⟩, []) ∧
    (updateOffer sampleUser "65f0c0ffee0123456789abcd" [("title", .str "Coat")] .undefined
      (sampleWorld (some sampleOffer) none)).1 ≠ ⟨400, .message msgNoChange⟩ :=
  ⟨Prod.ext
    ((update_rejects_empty_change sampleUser "65f0c0ffee0123456789abcd" [] .undefined
      (sampleWorld (some sampleOffer) none)).1.2 ⟨rfl, rfl⟩)
    ((update_rejects_empty_change sampleUser "65f0c0ffee0123456789abcd" [] .undefined
      (sampleWorld (some sampleOffer) none)).2 ⟨rfl, rfl⟩),
   fun h => absurd
    ((update_rejects_empty_change sampleUser "65f0c0ffee0123456789abcd"
      [("title", .str "Coat")] .undefined (sampleWorld (some sampleOffer) none)).1.1 h).1
    (by decide)⟩

/-- C3 (the code departs from the claim). A `PUT /offer/:id` sent by the owner as a
multipart form with no field and no file has an empty body and `req.files = null`. Line
281 tests `req.files === undefined`, which is false for `null`, so the request is not
rejected: the offer is looked up and saved as it is, and the response is 200 when the save
succeeds. The outcome does not depend on what `isObjectPopulate` returns. -/
theorem update_accepts_empty_multipart (user : User) (offerID : String) (w : World)
    (o : Offer) (hid : isObjectIdOrHexString offerID = true)
    (hfind : w.offerFindOne [] offerID = .ok (some o))
    (htoken : o.owner.token = user.token) :
    (updateOffer user offerID [] .null w).2 = [.offerFindOne offerID, .offerSave o] ∧
    (updateOffer user offerID [] .null w).1 ≠ ⟨400, .message msgNoChange⟩ ∧
    (w.offerSave [.offerFindOne offerID] o = .ok () →
      (updateOffer user offerID [] .null w).1 = ⟨200, .offer o⟩) := by
  have hrun : updateOwned o [] .null w [.offerFindOne offerID] =
      Prog.andThen (Prog.call (.offerSave o) (fun w tr => w.offerSave tr o))
        (fun _ => Prog.ret ⟨200, .offer o⟩) w [.offerFindOne offerID] := rfl
  rw [updateOffer_owned (by simp) hid hfind htoken, hrun]
  cases hs : w.offerSave [.offerFindOne offerID] o with
  | error e =>
    rw [Prog.call_andThen_error hs]
    refine ⟨rfl, ?_, fun h => by cases h⟩
    intro h
    have h500 : (500 : Nat) = 400 := congrArg Response.status h
    exact absurd h500 (by decide)
  | ok u =>
    rw [Prog.call_andThen_ok hs]
    refine ⟨rfl, ?_, fun _ => rfl⟩
    intro h
    have h200 : (200 : Nat) = 400 := congrArg Response.status h
    exact absurd h200 (by decide)

theorem update_accepts_empty_multipart_witness :
    updateOffer sampleUser "65f0c0ffee0123456789abcd" [] .null
      (sampleWorld (some sampleOffer) none) =
      (⟨200, .offer sampleOffer⟩,
        [.offerFindOne "65f0c0ffee0123456789abcd", .offerSave sampleOffer]) :=
  Prod.ext
    ((update_accepts_empty_multipart sampleUser "65f0c0ffee0123456789abcd"
      (sampleWorld (some sampleOffer) none) sampleOffer (by decide) rfl rfl).2.2 rfl)
    (update_accepts_empty_multipart sampleUser "65f0c0ffee0123456789abcd"
      (sampleWorld (some sampleOffer) none) sampleOffer (by decide) rfl rfl).1

/-- C4. On `PUT /offer/:id` (with something to change) and on `DELETE /offer/:id`, for a
valid id of a stored offer and whatever the body and the files are: when the token of the
requester differs from the token of the owner of the offer, the response is 401 and the
only call issued is the lookup (no asset-store call, no save, no deletion); when the two
tokens are equal the response is not 401. -/
theorem ownership_check (user : User) (offerID : String) (body : Fields) (files : ReqFiles)
    (w : World) (o : Offer) (hchange : ¬ (body = [] ∧ files = .undefined))
    (hid : isObjectIdOrHexString offerID = true)
    (hfind : w.offerFindOne [] offerID = .ok (some o)) :
    (o.owner.token ≠ user.token →
      updateOffer user offerID body files w =
        (⟨401, .error msgUnauthorized⟩, [.offerFindOne offerID]) ∧
      deleteOffer user offerID w = (⟨401, .error msgUnauthorized⟩, [.offerFindOne offerID])) ∧
    (o.owner.token = user.token →
      (updateOffer user offerID body files w).1.status ≠ 401 ∧
      (deleteOffer user offerID w).1.status ≠ 401) := by
  refine ⟨fun htoken => ⟨updateOffer_not_owner hchange hid hfind htoken, ?_⟩,
    fun htoken => ⟨?_, ?_⟩⟩
  · rw [deleteOffer_found hid hfind, if_neg htoken]
  · rw [updateOffer_owned hchange hid hfind htoken]
    rcases handler_updateOwned_cases o body files w [.offerFindOne offerID] with k | k | k
    · rcases k with k | k <;> rw [k] <;> decide
    · rw [k]; decide
    · rw [k]; decide
  · rw [deleteOffer_found hid hfind, if_pos htoken]
    rcases hrun : deleteOwned o w [.offerFindOne offerID] with ⟨res, tr1⟩
    cases res with
    | error e =>
      show (500 : Nat) ≠ 401
      decide
    | ok r =>
      show r.status ≠ 401
      rw [deleteOwned_ok hrun]
      decide

theorem ownership_check_witness :
    (updateOffer otherUser "65f0c0ffee0123456789abcd" [("title", .str "Coat")] .undefined
        (sampleWorld (some sampleOffer) none) =
      (⟨401, .error msgUnauthorized⟩, [.offerFindOne "65f0c0ffee0123456789abcd"]) ∧
     deleteOffer otherUser "65f0c0ffee0123456789abcd" (sampleWorld (some sampleOffer) none) =
      (⟨401, .error msgUnauthorized⟩, [.offerFindOne "65f0c0ffee0123456789abcd"])) ∧
    ((updateOffer sampleUser "65f0c0ffee0123456789abcd" [("title", .str "Coat")] .undefined
        (sampleWorld (some sampleOffer) none)).1.status ≠ 401 ∧
     (deleteOffer sampleUser "65f0c0ffee0123456789abcd"
        (sampleWorld (some sampleOffer) none)).1.status ≠ 401) :=
  ⟨(ownership_check otherUser "65f0c0ffee0123456789abcd" [("title", .str "Coat")] .undefined
      (sampleWorld (some sampleOffer) none) sampleOffer (by decide) (by decide) rfl).1
      (by decide),
   (ownership_check sampleUser "65f0c0ffee0123456789abcd" [("title", .str "Coat")] .undefined
      (sampleWorld (some sampleOffer) none) sampleOffer (by decide) (by decide) rfl).2 rfl⟩

/-- C5 as stated fails: a price of -5, outside the range [0, 100000] of a listing price, is
written to the offer and saved, and a title that is not a string (`false`) is skipped
without any rejection, the offer being saved as it was. -/
theorem update_saves_rule_breaking_fields :
    updateOffer sampleUser "65f0c0ffee0123456789abcd" [("price", .num (.fin (-5)))] .undefined
        (sampleWorld (some sampleOffer) none) =
      (⟨200, .offer { sampleOffer with product_price := .num (.fin (-5)) }⟩,
       [.offerFindOne "65f0c0ffee0123456789abcd",
        .offerSave { sampleOffer with product_price := .num (.fin (-5)) }]) ∧
    updateOffer sampleUser "65f0c0ffee0123456789abcd" [("title", .bool false)] .undefined
        (sampleWorld (some sampleOffer) none) =
      (⟨200, .offer sampleOffer⟩,
       [.offerFindOne "65f0c0ffee0123456789abcd", .offerSave sampleOffer]) := by
  decide

/-- C5, amended. On `PUT /offer/:id` for a stored offer owned by the requester. (1) When one
of title, description, price, brand, size, condition, color is supplied with a truthy value
that breaks the rule the handler checks for it (title, brand, condition, color: a string of
at most 50 characters; description: a string of at most 500; price: reads as a number of
at most 100000; size: such a string or such a number), the response is 400 and the only
call issued is the lookup: the record is not saved and nothing is asked of the asset
store, also when replacement images come with the request. (2) When no such field breaks
its rule, the city is falsy and the request changes something, the field checks pass and
the response is 200, or 500 when a call throws, never 400: every truthy title, description
and price is written to its slot, every falsy one leaves its slot as it was (and so do
falsy details), and without files the only call after the lookup is the save of that
record, answered 200 when it succeeds. (3) A price that reads as a number below 0 is
truthy and passes the price check: it is written to the record. -/
theorem update_all_or_nothing (user : User) (offerID : String) (body : Fields)
    (files : ReqFiles) (w : World) (o : Offer)
    (hid : isObjectIdOrHexString offerID = true)
    (hfind : w.offerFindOne [] offerID = .ok (some o))
    (htoken : o.owner.token = user.token) :
    (breaksRule body = true →
      (updateOffer user offerID body files w).1.status = 400 ∧
      (updateOffer user offerID body files w).2 = [.offerFindOne offerID]) ∧
    (breaksRule body = false → truthy (body.get "city") = false →
      ¬ (body = [] ∧ files = .undefined) →
      ∃ o1, applyFields body o = .ok o1 ∧
        o1.product_name =
          (if truthy (body.get "title") then body.get "title" else o.product_name) ∧
        o1.product_description =
          (if truthy (body.get "description") then body.get "description"
            else o.product_description) ∧
        o1.product_price =
          (if truthy (body.get "price") then body.get "price" else o.product_price) ∧
        (truthy (body.get "brand") = false → truthy (body.get "size") = false →
          truthy (body.get "condition") = false → truthy (body.get "color") = false →
          o1.product_details = o.product_details) ∧
        ((updateOffer user offerID body files w).1.status = 200 ∨
          (updateOffer user offerID body files w).1.status = 500) ∧
        (files = .undefined ∨ files = .null →
          (updateOffer user offerID body files w).2 =
            [.offerFindOne offerID, .offerSave o1] ∧
          (w.offerSave [.offerFindOne offerID] o1 = .ok () →
            (updateOffer user offerID body files w).1 = ⟨200, .offer o1⟩))) ∧
    (∀ q, toNumber (body.get "price") = .fin q → q < 0 →
      truthy (body.get "price") = true ∧
      (truthy (body.get "price") && !withinPrice (body.get "price")) = false ∧
      setPrice (body.get "price") o = .ok { o with product_price := body.get "price" }) := by
  refine ⟨fun hbreak => ?_, fun hrule hcity hchange => ?_, fun q hq hneg => ?_⟩
  · have hchange : ¬ (body = [] ∧ files = .undefined) := by
      rintro ⟨rfl, -⟩
      rw [breaksRule_nil] at hbreak
      cases hbreak
    obtain ⟨r, hr⟩ := applyFields_of_breaksRule o hbreak
    rw [updateOffer_owned hchange hid hfind htoken, updateOwned_of_error hr]
    refine ⟨?_, rfl⟩
    rcases applyFields_error hr with k | k <;> rw [k]
  · obtain ⟨o1, happ, hname, hdescr, hprice, hdetails⟩ := applyFields_of_rules o hrule hcity
    refine ⟨o1, happ, hname, hdescr, hprice, hdetails, ?_, fun hfiles => ?_⟩
    · rw [updateOffer_owned hchange hid hfind htoken]
      exact handler_updateOwned_of_fields files w _ happ
    · rw [updateOffer_owned hchange hid hfind htoken,
        updateOwned_without_files w _ happ hfiles]
      cases hs : w.offerSave [.offerFindOne offerID] o1 with
      | error e =>
        rw [Prog.call_andThen_error hs]
        exact ⟨rfl, fun h => by cases h⟩
      | ok u =>
        rw [Prog.call_andThen_ok hs]
        exact ⟨rfl, fun _ => rfl⟩
  · have ht := truthy_of_negative hq hneg
    have hw := withinPrice_of_negative hq hneg
    have hb : (truthy (body.get "price") && !withinPrice (body.get "price")) = false := by
      rw [ht, hw]
      rfl
    refine ⟨ht, hb, ?_⟩
    rw [setPrice_of_rule o hb, ht]
    rfl

theorem update_all_or_nothing_witness :
    ((updateOffer sampleUser "65f0c0ffee0123456789abcd"
      [("title", .str "Coat"), ("price", .str "100000.5"), ("city", .str "Lyon")]
      (.files ⟨some (sampleFile "a"), some (.many [sampleFile "b", sampleFile "c"])⟩)
      (sampleWorld (some sampleOffer) none)).1.status = 400 ∧
    (updateOffer sampleUser "65f0c0ffee0123456789abcd"
      [("title", .str "Coat"), ("price", .str "100000.5"), ("city", .str "Lyon")]
      (.files ⟨some (sampleFile "a"), some (.many [sampleFile "b", sampleFile "c"])⟩)
      (sampleWorld (some sampleOffer) none)).2 = [.offerFindOne "65f0c0ffee0123456789abcd"]) ∧
    (∃ o1, applyFields [("title", .bool false), ("price", .str "-0.5")] sampleOffer = .ok o1 ∧
      o1.product_name = sampleOffer.product_name ∧ o1.product_price = .str "-0.5" ∧
      (updateOffer sampleUser "65f0c0ffee0123456789abcd"
        [("title", .bool false), ("price", .str "-0.5")] .undefined
        (sampleWorld (some sampleOffer) none)) =
        (⟨200, .offer o1⟩, [.offerFindOne "65f0c0ffee0123456789abcd", .offerSave o1])) ∧
    setPrice (.str "-0.5") sampleOffer = .ok { sampleOffer with product_price := .str "-0.5" } :=
  ⟨(update_all_or_nothing sampleUser "65f0c0ffee0123456789abcd"
      [("title", .str "Coat"), ("price", .str "100000.5"), ("city", .str "Lyon")]
      (.files ⟨some (sampleFile "a"), some (.many [sampleFile "b", sampleFile "c"])⟩)
      (sampleWorld (some sampleOffer) none) sampleOffer (by decide) rfl rfl).1 (by decide),
   (match (update_all_or_nothing sampleUser "65f0c0ffee0123456789abcd"
      [("title", .bool false), ("price", .str "-0.5")] .undefined
      (sampleWorld (some sampleOffer) none) sampleOffer (by decide) rfl rfl).2.1
      (by decide) (by decide) (by simp) with
    | ⟨o1, happ, hname, _, hprice, _, _, hnofiles⟩ =>
      ⟨o1, happ, hname, hprice,
        Prod.ext ((hnofiles (Or.inl rfl)).2 rfl) (hnofiles (Or.inl rfl)).1⟩),
   ((update_all_or_nothing sampleUser "65f0c0ffee0123456789abcd"
      [("price", .str "-0.5")] .undefined
      (sampleWorld (some sampleOffer) none) sampleOffer (by decide) rfl rfl).2.2
      (mkRat (-1) 2) (by decide) (by decide)).2.2⟩

/-- C6 (the code departs from the claim). On `PUT /offer/:id` for a stored offer owned by
the requester, a body whose only field is a city of 1 to 50 characters is answered 400, the
offer is not saved and slot 4 is not written: line 399 tests
`city.length > titleMaxStrLength` where the other fields test `<=`. -/
theorem update_rejects_valid_city (user : User) (offerID : String) (city : String)
    (files : ReqFiles) (w : World) (o : Offer)
    (hid : isObjectIdOrHexString offerID = true)
    (hfind : w.offerFindOne [] offerID = .ok (some o))
    (htoken : o.owner.token = user.token)
    (hcity : city ≠ "") (hlen : jsLength city ≤ 50) :
    updateOffer user offerID [("city", .str city)] files w =
      (⟨400, .message msgFields⟩, [.offerFindOne offerID]) := by
  have happ : applyFields [("city", .str city)] o = .error ⟨400, .message msgFields⟩ := by
    have hlen2 : ¬ (jsLength city > titleMaxStrLength) := by
      unfold titleMaxStrLength
      omega
    simp [applyFields, setTitle, setDescription, setPrice, setBrand, setSize, setCondition,
      setColor, setCity, Fields.get, List.lookup, truthy, typeOf, lengthGt, hcity, hlen2,
      bind, Except.bind]
  rw [updateOffer_owned (by simp) hid hfind htoken, updateOwned_of_error happ]

theorem update_rejects_valid_city_witness :
    updateOffer sampleUser "65f0c0ffee0123456789abcd" [("city", .str "Paris")] .undefined
      (sampleWorld (some sampleOffer) none) =
      (⟨400, .message msgFields⟩, [.offerFindOne "65f0c0ffee0123456789abcd"]) :=
  update_rejects_valid_city sampleUser "65f0c0ffee0123456789abcd" "Paris" .undefined
    (sampleWorld (some sampleOffer) none) sampleOffer (by decide) rfl rfl (by decide)
    (by decide)

/-- The update of the examples with a city of 51 characters: it is written to slot 4 and
the offer is saved. -/
theorem update_accepts_long_city :
    (updateOffer sampleUser "65f0c0ffee0123456789abcd"
      [("city", .str "Saint-Remy-en-Bouzemont-Saint-Genest-et-Isson-51100")] .undefined
      (sampleWorld (some sampleOffer) none)).1.status = 200 ∧
    jsLength "Saint-Remy-en-Bouzemont-Saint-Genest-et-Isson-51100" = 51 := by
  decide

/-- C8. On `DELETE /offer/:id` for a valid id of a stored offer owned by the requester,
whose main image descriptor carries an identifier: after the lookup the handler destroys
the asset `product_image.public_id`, deletes the folder `product_image.folder`, deletes
the record, in that order and with no other call (none on an additional picture), and
answers 200 when the three calls succeed; when the first or the second call fails the
response is 500 and the record is not deleted. -/
theorem delete_sequence (user : User) (offerID : String) (w : World) (o : Offer) (a : Asset)
    (hid : isObjectIdOrHexString offerID = true)
    (hfind : w.offerFindOne [] offerID = .ok (some o))
    (htoken : o.owner.token = user.token)
    (himage : o.product_image = some a) (hpid : a.public_id ≠ "") :
    (w.destroy [.offerFindOne offerID] a.public_id = .ok () →
      w.delete_folder [.offerFindOne offerID, .destroy a.public_id] a.folder = .ok () →
      w.offerDeleteOne
        [.offerFindOne offerID, .destroy a.public_id, .delete_folder a.folder] o = .ok () →
      deleteOffer user offerID w =
        (⟨200, .message ("Your offer " ++ jsToString o.product_name ++
            " was successfully deleted.")⟩,
         [.offerFindOne offerID, .destroy a.public_id, .delete_folder a.folder,
          .offerDeleteOne o])) ∧
    (∀ e, w.destroy [.offerFindOne offerID] a.public_id = .error e →
      (deleteOffer user offerID w).1.status = 500 ∧
      (deleteOffer user offerID w).2 = [.offerFindOne offerID, .destroy a.public_id]) ∧
    (∀ e, w.destroy [.offerFindOne offerID] a.public_id = .ok () →
      w.delete_folder [.offerFindOne offerID, .destroy a.public_id] a.folder = .error e →
      (deleteOffer user offerID w).1.status = 500 ∧
      (deleteOffer user offerID w).2 =
        [.offerFindOne offerID, .destroy a.public_id, .delete_folder a.folder]) := by
  rw [deleteOffer_found hid hfind, if_pos htoken]
  unfold deleteOwned
  simp only [himage, publicIdOf, Prog.bind_eq, Prog.pure_eq]
  refine ⟨fun h1 h2 h3 => ?_, fun e h1 => ?_, fun e h1 h2 => ?_⟩
  · rw [Prog.andThen_of_ok (Prog.ret_apply _ _ _),
      Prog.andThen_of_ok (deleteCreateFiles_destroy_ok hpid h1),
      Prog.andThen_of_ok (Prog.ret_apply _ _ _)]
    unfold deleteFolder
    rw [Prog.call_andThen_ok h2, Prog.call_andThen_ok h3]
    rfl
  · rw [Prog.andThen_of_ok (Prog.ret_apply _ _ _),
      Prog.andThen_of_error (deleteCreateFiles_destroy_error hpid h1)]
    exact ⟨rfl, rfl⟩
  · rw [Prog.andThen_of_ok (Prog.ret_apply _ _ _),
      Prog.andThen_of_ok (deleteCreateFiles_destroy_ok hpid h1),
      Prog.andThen_of_ok (Prog.ret_apply _ _ _)]
    unfold deleteFolder
    rw [Prog.call_andThen_error h2]
    exact ⟨rfl, rfl⟩

theorem delete_sequence_witness :
    deleteOffer sampleUser "65f0c0ffee0123456789abcd" (sampleWorld (some sampleOffer) none) =
      (⟨200, .message "Your offer Jacket was successfully deleted."⟩,
       [.offerFindOne "65f0c0ffee0123456789abcd",
        .destroy "vinted/offers/65f0c0ffee0123456789abcd/img",
        .delete_folder "vinted/offers/65f0c0ffee0123456789abcd",
        .offerDeleteOne sampleOffer]) :=
  (delete_sequence sampleUser "65f0c0ffee0123456789abcd" (sampleWorld (some sampleOffer) none)
    sampleOffer ⟨"vinted/offers/65f0c0ffee0123456789abcd/img",
      "vinted/offers/65f0c0ffee0123456789abcd", ""⟩ (by decide) rfl rfl rfl (by decide)).1
    rfl rfl rfl

/-- C9 (the code departs from the claim). For the query `priceMin=10&priceMax=9` the two
bounds are in range and inverted, yet they are not exchanged: both are strings, and
line 192 compares them as strings ("10" is below "9"); the filter sent to the store is
`$gte: "10", $lte: "9"`. For `priceMin=9&priceMax=10`, which is in order, the bounds are
exchanged, to the same filter. -/
theorem search_bounds_compared_as_strings :
    priceRange (.str "10") (.str "9") = (.str "10", .str "9") ∧
    priceRange (.str "9") (.str "10") = (.str "10", .str "9") ∧
    (getOffers [("priceMin", .str "10"), ("priceMax", .str "9")]
      (sampleWorld (some sampleOffer) none)).2 =
      [.offerFind { product_name := .undefined, product_description := .undefined,
                    gte := .str "10", lte := .str "9", sort := "desc", skip := .nan,
                    limit := .undefined }] := by
  decide

/-- C10. With an injective digest, for every password `p`, salt `s` and candidate `q`: the
comparison made at login between the digest of the candidate followed by the salt and the
digest computed at signup for `p` with that salt holds exactly when `q = p`. And the
signup handler stores what the comparison needs: a `POST /user/signup` answered 201 for the
password `p` ends with the save of an account that holds the email of the request, the
salt drawn by `uid2(16)` and the digest of `p` followed by that salt; when the account
store later returns this account for that email (with the same digest function),
`POST /user/login` answers 200 with its token exactly when the password sent is `p`, and
400 "Wrong password." for every other password. -/
theorem login_accepts_exactly_signup_password (w1 w2 : World) (body : Fields)
    (files : Option AvatarFiles) (email p q : String)
    (hinj : Function.Injective w1.sha256Base64)
    (hsame : w2.sha256Base64 = w1.sha256Base64)
    (hemail : body.get "email" = .str email)
    (hpassword : body.get "password" = .str p)
    (hcreated : (signup body files w1).1.status = 201) :
    (∀ s, hashToTest w2 (.str q) s = hashGenerate w1 p s ↔ q = p) ∧
    ∃ created tr1, (signup body files w1).2 = tr1 ++ [.userSave created] ∧
      created.email = email ∧ created.salt = w1.uid2 16 ∧
      created.hash = w1.sha256Base64 (p ++ w1.uid2 16) ∧
      (hashToTest w2 (.str q) created.salt = created.hash ↔ q = p) ∧
      (w2.userFindOne [] (.str email) = .ok (some created) →
        ((login [("email", .str email), ("password", .str q)] w2).1.status = 200 ↔ q = p) ∧
        (q = p → login [("email", .str email), ("password", .str q)] w2 =
          (⟨200, .session created.token created.username⟩, [.userFindOne (.str email)])) ∧
        (q ≠ p → login [("email", .str email), ("password", .str q)] w2 =
          (⟨400, .message "Wrong password."⟩, [.userFindOne (.str email)]))) := by
  have key : ∀ s, hashToTest w2 (.str q) s = hashGenerate w1 p s ↔ q = p := by
    intro s
    constructor
    · intro h
      unfold hashToTest hashGenerate at h
      rw [hsame] at h
      exact append_salt_cancel (hinj h)
    · rintro rfl
      unfold hashToTest hashGenerate
      rw [hsame]
      rfl
  obtain ⟨created, tr1, htr, hmail, hsalt, hhash⟩ :=
    signup_credentials hemail hpassword hcreated
  have hcmp : hashToTest w2 (.str q) created.salt = created.hash ↔ q = p := by
    rw [hsalt, hhash]
    exact key _
  refine ⟨key, created, tr1, htr, hmail, hsalt, hhash, hcmp, fun hfind => ?_⟩
  rw [login_found hfind]
  by_cases hq : hashToTest w2 (.str q) created.salt = created.hash
  · rw [if_pos hq]
    exact ⟨⟨fun _ => hcmp.mp hq, fun _ => rfl⟩, fun _ => rfl,
      fun hne => absurd (hcmp.mp hq) hne⟩
  · rw [if_neg hq]
    refine ⟨⟨fun h => ?_, fun h => absurd (hcmp.mpr h) hq⟩,
      fun h => absurd (hcmp.mpr h) hq, fun _ => rfl⟩
    have h400 : (400 : Nat) = 200 := h
    exact absurd h400 (by decide)

theorem login_accepts_exactly_signup_password_witness :
    (∀ s, hashToTest (sampleWorld none (some signedUpUser)) (.str "word") s =
        hashGenerate (sampleWorld none none) "pass" s ↔ "word" = "pass") ∧
    ∃ created tr1,
      (signup (signupBody "ana@mail.io") none (sampleWorld none none)).2 =
        tr1 ++ [.userSave created] ∧
      created.email = "ana@mail.io" ∧ created.salt = (sampleWorld none none).uid2 16 ∧
      created.hash =
        (sampleWorld none none).sha256Base64 ("pass" ++ (sampleWorld none none).uid2 16) ∧
      (hashToTest (sampleWorld none (some signedUpUser)) (.str "word") created.salt =
        created.hash ↔ "word" = "pass") ∧
      ((sampleWorld none (some signedUpUser)).userFindOne [] (.str "ana@mail.io") =
          .ok (some created) →
        ((login [("email", .str "ana@mail.io"), ("password", .str "word")]
            (sampleWorld none (some signedUpUser))).1.status = 200 ↔ "word" = "pass") ∧
        ("word" = "pass" →
          login [("email", .str "ana@mail.io"), ("password", .str "word")]
            (sampleWorld none (some signedUpUser)) =
          (⟨200, .session created.token created.username⟩,
            [.userFindOne (.str "ana@mail.io")])) ∧
        ("word" ≠ "pass" →
          login [("email", .str "ana@mail.io"), ("password", .str "word")]
            (sampleWorld none (some signedUpUser)) =
          (⟨400, .message "Wrong password."⟩, [.userFindOne (.str "ana@mail.io")]))) :=
  login_accepts_exactly_signup_password (sampleWorld none none)
    (sampleWorld none (some signedUpUser)) (signupBody "ana@mail.io") none "ana@mail.io"
    "pass" "word" (fun _ _ h => h) rfl rfl rfl (by decide)

/-- The scenario of C10 evaluated: the signup of `ana@mail.io` with the password "pass" is
answered 201 and saves the account `signedUpUser`; once the store holds that account, the
login with "pass" is answered 200 with its token, the login with "word" 400. -/
theorem signup_then_login_scenario :
    signup (signupBody "ana@mail.io") none (sampleWorld none none) =
      (⟨201, .message ("Your Vinted account was successfully created ana. You can now " ++
          "use your email ana@mail.io to login.")⟩,
        [.userFindOne (.str "ana@mail.io"), .userSave signedUpUser]) ∧
    login [("email", .str "ana@mail.io"), ("password", .str "pass")]
        (sampleWorld none (some signedUpUser)) =
      (⟨200, .session signedUpUser.token "ana"⟩, [.userFindOne (.str "ana@mail.io")]) ∧
    login [("email", .str "ana@mail.io"), ("password", .str "word")]
        (sampleWorld none (some signedUpUser)) =
      (⟨400, .message "Wrong password."⟩, [.userFindOne (.str "ana@mail.io")]) := by
  decide

/-- C7. For a publish request that passes the validation, with a main image and an array
of n additional pictures (in particular n at least 2), in a world where every asset-store
call succeeds and a rename answers a descriptor carrying the requested identifier. The
calls issued are: the upload and the relocation of the main image, the uploads of the n
pictures in order, their n `sub_folders` and n `create_folder` calls, the n renames in
order, each to `vinted/offers/<offer id>/<id answered to the upload>`, then the save
(followed by the populate when the save succeeds). The record saved has the identifier of
the new offer; its main descriptor is the answer to the rename of the uploaded image and
carries `vinted/offers/<offer id>/<uploaded id>`; `product_pictures` has exactly n
descriptors, the one of index i being the answer to the rename of the upload of picture i.
The response is 200 with that record, or 500 when the save or the populate fails. -/
theorem publish_relocates_assets (user : User) (body : Fields) (files : Files) (w : World)
    (up : List Op → String → Asset) (rn : List Op → String → String → Asset)
    (image : File) (pictures : List File)
    (hvalid : publishInvalid body = false)
    (himage : files.image = some image)
    (hpictures : files.pictures = some (.many pictures))
    (hok : AssetStoreOk w up rn) :
    ∃ (saved : Offer) (tail : List Op),
      (publish user body files w).2 =
        primaryOps w.newObjectId image (up [] (convertToBase64 image)) ++
          uploadOps pictures ++
          subFolderOps offerFolderRootPath pictures.length ++
          createFolderOps w.newObjectId offerFolderRootPath pictures.length ++
          renameOps w.newObjectId offerFolderRootPath
            (uploadReplies up (primaryOps w.newObjectId image (up [] (convertToBase64 image)))
              pictures) ++
          [.offerSave saved] ++ tail ∧
      (tail = [] ∨ tail = [.offerPopulate saved]) ∧
      saved._id = w.newObjectId ∧
      saved.product_image = some (rn
        [.upload (convertToBase64 image), .sub_folders offerFolderRootPath,
          .create_folder (offerFolderRootPath ++ "/" ++ w.newObjectId.hex)]
        (up [] (convertToBase64 image)).public_id
        (relocated w.newObjectId (up [] (convertToBase64 image)).public_id)) ∧
      saved.product_image.map Asset.public_id =
        some (relocated w.newObjectId (up [] (convertToBase64 image)).public_id) ∧
      saved.product_pictures.length = pictures.length ∧
      (∀ i p, pictures[i]? = some p →
        saved.product_pictures[i]? = some (some (rn
          (primaryOps w.newObjectId image (up [] (convertToBase64 image)) ++
            uploadOps pictures ++
            subFolderOps offerFolderRootPath pictures.length ++
            createFolderOps w.newObjectId offerFolderRootPath pictures.length ++
            renameOps w.newObjectId offerFolderRootPath
              ((uploadReplies up
                (primaryOps w.newObjectId image (up [] (convertToBase64 image)))
                pictures).take i))
          (up (primaryOps w.newObjectId image (up [] (convertToBase64 image)) ++
              uploadOps (pictures.take i)) (convertToBase64 p)).public_id
          (relocated w.newObjectId
            (up (primaryOps w.newObjectId image (up [] (convertToBase64 image)) ++
              uploadOps (pictures.take i)) (convertToBase64 p)).public_id))) ∧
        (saved.product_pictures[i]?).map (Option.map Asset.public_id) =
          some (some (relocated w.newObjectId
            (up (primaryOps w.newObjectId image (up [] (convertToBase64 image)) ++
                uploadOps (pictures.take i)) (convertToBase64 p)).public_id))) ∧
      ((publish user body files w).1 = ⟨200, .offer saved⟩ ∨
        (publish user body files w).1.status = 500) := by
  obtain ⟨folders, hsf⟩ := hok.sub_folders_ok ([] ++ [.upload (convertToBase64 image)])
    offerFolderRootPath
  have hmove := createFolder_ok w.newObjectId hsf (hok.create_folder_ok _ _)
    (hok.rename_ok _ (up [] (convertToBase64 image)).public_id _)
  obtain ⟨moved, hmoved⟩ : ∃ moved : Asset, moved = rn
      ([] ++ [.upload (convertToBase64 image)] ++ [.sub_folders offerFolderRootPath] ++
        [.create_folder (offerFolderRootPath ++ "/" ++ w.newObjectId.hex)])
      (up [] (convertToBase64 image)).public_id
      (offerFolderRootPath ++ "/" ++ w.newObjectId.hex ++ "/" ++
        (up [] (convertToBase64 image)).public_id) := ⟨_, rfl⟩
  rw [← hmoved] at hmove
  have hmovedId : moved.public_id =
      relocated w.newObjectId (up [] (convertToBase64 image)).public_id := by
    rw [hmoved, hok.rename_id]
    rfl
  obtain ⟨ups, hups⟩ : ∃ ups : List Asset, ups = uploadReplies up
      (primaryOps w.newObjectId image (up [] (convertToBase64 image))) pictures := ⟨_, rfl⟩
  obtain ⟨before, hbefore⟩ : ∃ before : List Op, before =
      primaryOps w.newObjectId image (up [] (convertToBase64 image)) ++
        uploadOps pictures ++ subFolderOps offerFolderRootPath pictures.length ++
        createFolderOps w.newObjectId offerFolderRootPath pictures.length := ⟨_, rfl⟩
  have hpics := publishPictures_many_ok hok (offerRecord w user body (some moved) []) pictures
    (primaryOps w.newObjectId image (up [] (convertToBase64 image)))
  have hid : (offerRecord w user body (some moved) [])._id = w.newObjectId := rfl
  rw [hid, ← hups, ← hbefore] at hpics
  obtain ⟨res, hresdef⟩ : ∃ res : List (Option Asset), res =
      (renameReplies rn w.newObjectId offerFolderRootPath before ups).map some := ⟨_, rfl⟩
  rw [← hresdef] at hpics
  obtain ⟨r, tr2, htail, htr2, hr⟩ :=
    publish_tail (offerRecord w user body (some moved) res) w
      (before ++ renameOps w.newObjectId offerFolderRootPath ups)
  have hrun : publish user body files w =
      (r, before ++ renameOps w.newObjectId offerFolderRootPath ups ++
        [.offerSave (offerRecord w user body (some moved) res)] ++ tr2) := by
    unfold publish handler
    rw [if_neg (by rw [hvalid]; simp)]
    simp only [Prog.bind_eq, Prog.pure_eq, himage, hpictures]
    rw [Prog.andThen_of_ok (deleteCreateFiles_upload_ok (hok.upload_ok [] _)),
      Prog.andThen_of_ok (Prog.world_apply _ _)]
    simp only [publicIdOf, Prog.pure_eq]
    rw [Prog.andThen_of_ok (Prog.ret_apply _ _ _), Prog.andThen_of_ok hmove]
    have htr : primaryOps w.newObjectId image (up [] (convertToBase64 image)) =
        [] ++ [.upload (convertToBase64 image)] ++ [.sub_folders offerFolderRootPath] ++
          [.create_folder (offerFolderRootPath ++ "/" ++ w.newObjectId.hex)] ++
          [.rename (up [] (convertToBase64 image)).public_id
            (offerFolderRootPath ++ "/" ++ w.newObjectId.hex ++ "/" ++
              (up [] (convertToBase64 image)).public_id)] := rfl
    unfold offerRecord at hpics
    rw [htr] at hpics
    rw [Prog.andThen_of_ok hpics]
    simp only [Prog.bind_eq, Prog.pure_eq] at htail
    exact htail
  have hlen : res.length = pictures.length := by
    rw [hresdef, List.length_map, renameReplies_length, hups, uploadReplies_length]
  refine Exists.intro (offerRecord w user body (some moved) res)
    (Exists.intro tr2 ⟨?_, htr2, rfl, ?_, ?_, hlen, ?_, ?_⟩)
  · rw [hrun, hbefore, hups]
  · show some moved = _
    rw [hmoved]
    rfl
  · show some moved.public_id = _
    rw [hmovedId]
  · intro i p hp
    have hget : res[i]? = some (some (rn
        (before ++ renameOps w.newObjectId offerFolderRootPath (ups.take i))
        (up (primaryOps w.newObjectId image (up [] (convertToBase64 image)) ++
          uploadOps (pictures.take i)) (convertToBase64 p)).public_id
        (relocated w.newObjectId
          (up (primaryOps w.newObjectId image (up [] (convertToBase64 image)) ++
            uploadOps (pictures.take i)) (convertToBase64 p)).public_id))) := by
      have hu : ups[i]? = some (up (primaryOps w.newObjectId image
          (up [] (convertToBase64 image)) ++ uploadOps (pictures.take i))
          (convertToBase64 p)) := by
        rw [hups, uploadReplies_getElem?, hp]
        rfl
      rw [hresdef, List.getElem?_map, renameReplies_getElem?, hu]
      rfl
    refine ⟨?_, ?_⟩
    · show res[i]? = _
      rw [hget, hbefore, hups]
    · show (res[i]?).map (Option.map Asset.public_id) = _
      rw [hget]
      simp [hok.rename_id]
  · rw [hrun]
    exact hr

theorem publish_relocates_assets_witness :
    ∃ (saved : Offer) (tail : List Op),
      (publish sampleUser (jacketBody (.str "45"))
        ⟨some (sampleFile "front"), some (.many [sampleFile "back", sampleFile "label"])⟩
        (sampleWorld none none)).2 =
        [.upload "data:image/png;base64,AAAA", .sub_folders "vinted/offers",
         .create_folder "vinted/offers/65f0c0ffee0123456789abcd",
         .rename "tmp0" "vinted/offers/65f0c0ffee0123456789abcd/tmp0",
         .upload "data:image/png;base64,AAAA", .upload "data:image/png;base64,AAAA",
         .sub_folders "vinted/offers", .sub_folders "vinted/offers",
         .create_folder "vinted/offers/65f0c0ffee0123456789abcd",
         .create_folder "vinted/offers/65f0c0ffee0123456789abcd",
         .rename "tmp4" "vinted/offers/65f0c0ffee0123456789abcd/tmp4",
         .rename "tmp5" "vinted/offers/65f0c0ffee0123456789abcd/tmp5",
         .offerSave saved] ++ tail ∧
      (tail = [] ∨ tail = [.offerPopulate saved]) ∧
      saved._id = ⟨"65f0c0ffee0123456789abcd"⟩ ∧
      saved.product_image =
        some ⟨"vinted/offers/65f0c0ffee0123456789abcd/tmp0", "", ""⟩ ∧
      saved.product_image.map Asset.public_id =
        some "vinted/offers/65f0c0ffee0123456789abcd/tmp0" ∧
      saved.product_pictures.length = 2 ∧
      (∀ i p, [sampleFile "back", sampleFile "label"][i]? = some p →
        saved.product_pictures[i]? = some (some (sampleRename
          (primaryOps ⟨"65f0c0ffee0123456789abcd"⟩ (sampleFile "front")
              (sampleUpload [] (convertToBase64 (sampleFile "front"))) ++
            uploadOps [sampleFile "back", sampleFile "label"] ++
            subFolderOps offerFolderRootPath 2 ++
            createFolderOps ⟨"65f0c0ffee0123456789abcd"⟩ offerFolderRootPath 2 ++
            renameOps ⟨"65f0c0ffee0123456789abcd"⟩ offerFolderRootPath
              ((uploadReplies sampleUpload
                (primaryOps ⟨"65f0c0ffee0123456789abcd"⟩ (sampleFile "front")
                  (sampleUpload [] (convertToBase64 (sampleFile "front"))))
                [sampleFile "back", sampleFile "label"]).take i))
          (sampleUpload (primaryOps ⟨"65f0c0ffee0123456789abcd"⟩ (sampleFile "front")
              (sampleUpload [] (convertToBase64 (sampleFile "front"))) ++
            uploadOps ([sampleFile "back", sampleFile "label"].take i))
            (convertToBase64 p)).public_id
          (relocated ⟨"65f0c0ffee0123456789abcd"⟩
            (sampleUpload (primaryOps ⟨"65f0c0ffee0123456789abcd"⟩ (sampleFile "front")
                (sampleUpload [] (convertToBase64 (sampleFile "front"))) ++
              uploadOps ([sampleFile "back", sampleFile "label"].take i))
              (convertToBase64 p)).public_id))) ∧
        (saved.product_pictures[i]?).map (Option.map Asset.public_id) =
          some (some (relocated ⟨"65f0c0ffee0123456789abcd"⟩
            (sampleUpload (primaryOps ⟨"65f0c0ffee0123456789abcd"⟩ (sampleFile "front")
                (sampleUpload [] (convertToBase64 (sampleFile "front"))) ++
              uploadOps ([sampleFile "back", sampleFile "label"].take i))
              (convertToBase64 p)).public_id))) ∧
      ((publish sampleUser (jacketBody (.str "45"))
          ⟨some (sampleFile "front"), some (.many [sampleFile "back", sampleFile "label"])⟩
          (sampleWorld none none)).1 = ⟨200, .offer saved⟩ ∨
        (publish sampleUser (jacketBody (.str "45"))
          ⟨some (sampleFile "front"), some (.many [sampleFile "back", sampleFile "label"])⟩
          (sampleWorld none none)).1.status = 500) :=
  publish_relocates_assets sampleUser (jacketBody (.str "45"))
    ⟨some (sampleFile "front"), some (.many [sampleFile "back", sampleFile "label"])⟩
    (sampleWorld none none) sampleUpload sampleRename (sampleFile "front")
    [sampleFile "back", sampleFile "label"] (by decide) rfl rfl
    ⟨fun _ _ => rfl, fun _ _ => ⟨[], rfl⟩, fun _ _ => rfl, fun _ _ _ => rfl, fun _ _ _ => rfl⟩

/-- The publish request of the end-to-end scenario: the record saved holds two additional
descriptors, and the three assets are under the folder named by the offer. -/
theorem publish_jacket_scenario :
    (publish sampleUser (jacketBody (.str "45"))
      ⟨some (sampleFile "front"), some (.many [sampleFile "back", sampleFile "label"])⟩
      (sampleWorld none none)).1 =
      ⟨200, .offer (offerRecord (sampleWorld none none) sampleUser (jacketBody (.str "45"))
        (some ⟨"vinted/offers/65f0c0ffee0123456789abcd/tmp0", "", ""⟩)
        [some ⟨"vinted/offers/65f0c0ffee0123456789abcd/tmp4", "", ""⟩,
         some ⟨"vinted/offers/65f0c0ffee0123456789abcd/tmp5", "", ""⟩])⟩ := by
  decide

/-- C11. A signup whose username, email and password are strings and whose email passes
the format check, in a store where the lookup of the email finds an account, is answered
409 and issues no call but that lookup: no account is saved and nothing is asked of the
asset store. Consequently, when a first signup with the email was answered 201, it saved
an account holding that email, and a second signup with the same email, in a store that
now finds this account, is answered 409. -/
theorem signup_rejects_duplicate_email (w1 w2 : World) (body1 body2 : Fields)
    (files1 files2 : Option AvatarFiles) (username password email : String)
    (husername : body2.get "username" = .str username)
    (hemail : body2.get "email" = .str email)
    (hpassword : body2.get "password" = .str password) :
    (∀ u, emailFormatInvalid email = false →
      w2.userFindOne [] (.str email) = .ok (some u) →
      signup body2 files2 w2 =
        (⟨409, .message "This email already has an account"⟩, [.userFindOne (.str email)])) ∧
    (body1.get "email" = .str email → (signup body1 files1 w1).1.status = 201 →
      ∃ created, Op.userSave created ∈ (signup body1 files1 w1).2 ∧ created.email = email ∧
        (w2.userFindOne [] (.str email) = .ok (some created) →
          signup body2 files2 w2 =
            (⟨409, .message "This email already has an account"⟩,
              [.userFindOne (.str email)]))) := by
  have hdup : ∀ u, emailFormatInvalid email = false →
      w2.userFindOne [] (.str email) = .ok (some u) →
      signup body2 files2 w2 =
        (⟨409, .message "This email already has an account"⟩,
          [.userFindOne (.str email)]) := by
    intro u hformat hfind
    unfold signup handler
    simp only [Prog.bind_eq, husername, hemail, hpassword]
    rw [Prog.call_andThen_ok hfind, signupChecks_duplicate files2 u w2 _ hformat]
    rfl
  refine ⟨hdup, fun hemail1 h201 => ?_⟩
  obtain ⟨hformat, created, hmem, hc⟩ := signup_created hemail1 h201
  exact ⟨created, hmem, hc, hdup created hformat⟩

theorem signup_rejects_duplicate_email_witness :
    signup (signupBody "ana@mail.io") none (sampleWorld none (some sampleUser)) =
      (⟨409, .message "This email already has an account"⟩,
        [.userFindOne (.str "ana@mail.io")]) ∧
    ∃ created, Op.userSave created ∈
        (signup (signupBody "ana@mail.io") none (sampleWorld none none)).2 ∧
      created.email = "ana@mail.io" ∧
      ((sampleWorld none (some sampleUser)).userFindOne [] (.str "ana@mail.io") =
          .ok (some created) →
        signup (signupBody "ana@mail.io") none (sampleWorld none (some sampleUser)) =
          (⟨409, .message "This email already has an account"⟩,
            [.userFindOne (.str "ana@mail.io")])) :=
  ⟨(signup_rejects_duplicate_email (sampleWorld none none) (sampleWorld none (some sampleUser))
      (signupBody "ana@mail.io") (signupBody "ana@mail.io") none none "ana" "pass"
      "ana@mail.io" rfl rfl rfl).1 sampleUser (by decide) rfl,
   (signup_rejects_duplicate_email (sampleWorld none none) (sampleWorld none (some sampleUser))
      (signupBody "ana@mail.io") (signupBody "ana@mail.io") none none "ana" "pass"
      "ana@mail.io" rfl rfl rfl).2 rfl (by decide)⟩

/-- C12 as stated fails: with a file to upload and an identifier to delete, in a store
whose `destroy` call fails, the helper issues the `destroy` call and no `upload` call, and
returns no descriptor. -/
theorem replace_helper_stops_after_failed_destroy :
    (deleteCreateFiles (some (sampleFile "new")) (some "old") destroyFailsWorld []).2 =
      [.destroy "old"] ∧
    (deleteCreateFiles (some (sampleFile "new")) (some "old") destroyFailsWorld []).1 =
      .error "res is not defined" := by
  exact ⟨rfl, rfl⟩

/-- C12, amended. For every call `deleteCreateFiles(fileToUpload, fileToDeleteID)`:
`destroy` is called, once and with `fileToDeleteID`, exactly when `fileToDeleteID` is truthy
(present and not empty), and it is the first call; `upload` is called, once and after the
`destroy`, exactly when a file is given and the `destroy`, if any, did not fail; the result
is the descriptor answered by the upload when a file is given and the calls succeed,
`undefined` when no file is given and the `destroy`, if any, succeeds; when a call fails the
helper returns no descriptor. -/
theorem replace_helper_order (fileToUpload : Option File) (fileToDeleteID : Option String)
    (w : World) (tr : List Op) :
    (idTruthy fileToDeleteID = false →
      (fileToUpload = none →
        deleteCreateFiles fileToUpload fileToDeleteID w tr = (.ok none, tr)) ∧
      (∀ f a, fileToUpload = some f → w.upload tr (convertToBase64 f) = .ok a →
        deleteCreateFiles fileToUpload fileToDeleteID w tr =
          (.ok (some a), tr ++ [.upload (convertToBase64 f)])) ∧
      (∀ f e, fileToUpload = some f → w.upload tr (convertToBase64 f) = .error e →
        (∃ e1, (deleteCreateFiles fileToUpload fileToDeleteID w tr).1 = .error e1) ∧
        (deleteCreateFiles fileToUpload fileToDeleteID w tr).2 =
          tr ++ [.upload (convertToBase64 f)])) ∧
    (∀ i, fileToDeleteID = some i → i ≠ "" →
      (w.destroy tr i = .ok () →
        (fileToUpload = none →
          deleteCreateFiles fileToUpload fileToDeleteID w tr = (.ok none, tr ++ [.destroy i])) ∧
        (∀ f a, fileToUpload = some f →
          w.upload (tr ++ [.destroy i]) (convertToBase64 f) = .ok a →
          deleteCreateFiles fileToUpload fileToDeleteID w tr =
            (.ok (some a), tr ++ [.destroy i] ++ [.upload (convertToBase64 f)])) ∧
        (∀ f e, fileToUpload = some f →
          w.upload (tr ++ [.destroy i]) (convertToBase64 f) = .error e →
          (∃ e1, (deleteCreateFiles fileToUpload fileToDeleteID w tr).1 = .error e1) ∧
          (deleteCreateFiles fileToUpload fileToDeleteID w tr).2 =
            tr ++ [.destroy i] ++ [.upload (convertToBase64 f)])) ∧
      (∀ e, w.destroy tr i = .error e →
        (∃ e1, (deleteCreateFiles fileToUpload fileToDeleteID w tr).1 = .error e1) ∧
        (deleteCreateFiles fileToUpload fileToDeleteID w tr).2 = tr ++ [.destroy i])) := by
  refine ⟨fun hfalsy => ⟨?_, ?_, ?_⟩, fun i hid hi => ⟨fun hd => ⟨?_, ?_, ?_⟩, ?_⟩⟩
  · rintro rfl
    rw [deleteCreateFiles_of_falsy none w tr hfalsy, deleteCreateFiles_nothing]
  · rintro f a rfl hup
    rw [deleteCreateFiles_of_falsy (some f) w tr hfalsy, deleteCreateFiles_upload_ok hup]
  · rintro f e rfl hup
    rw [deleteCreateFiles_of_falsy (some f) w tr hfalsy, deleteCreateFiles_upload_error hup]
    exact ⟨⟨_, rfl⟩, rfl⟩
  · rintro rfl
    rw [hid, deleteCreateFiles_after_destroy none hi hd, deleteCreateFiles_nothing]
  · rintro f a rfl hup
    rw [hid, deleteCreateFiles_after_destroy (some f) hi hd, deleteCreateFiles_upload_ok hup]
  · rintro f e rfl hup
    rw [hid, deleteCreateFiles_after_destroy (some f) hi hd,
      deleteCreateFiles_upload_error hup]
    exact ⟨⟨_, rfl⟩, rfl⟩
  · intro e hd
    rw [hid, deleteCreateFiles_destroy_fails fileToUpload hi hd]
    exact ⟨⟨_, rfl⟩, rfl⟩

theorem replace_helper_order_witness :
    deleteCreateFiles (some (sampleFile "new")) (some "old") (sampleWorld none none) [] =
      (.ok (some ⟨"tmp1", "", ""⟩),
        [.destroy "old", .upload "data:image/png;base64,AAAA"]) :=
  (((replace_helper_order (some (sampleFile "new")) (some "old") (sampleWorld none none) []).2
    "old" rfl (by decide)).1 rfl).2.1 (sampleFile "new") ⟨"tmp1", "", ""⟩ rfl rfl

/-- C13 (the code departs from the claim). An update by the owner that supplies two new
additional pictures for an offer holding two (`old1`, `old2`) issues no `destroy` call:
the pictures are uploaded and moved, the offer is saved with the two new descriptors, and
the two previous assets stay in the asset store. The same holds for a single new picture.
A new main image, by contrast, starts with the `destroy` of the previous one. -/
theorem update_pictures_never_destroyed :
    (updateOffer sampleUser "65f0c0ffee0123456789abcd" []
        (.files ⟨none, some (.many [sampleFile "b", sampleFile "c"])⟩)
        (sampleWorld (some sampleOfferWithPictures) none)).2.filter Op.isAssetOp =
      [.upload "data:image/png;base64,AAAA", .upload "data:image/png;base64,AAAA",
       .sub_folders "vinted/offers", .sub_folders "vinted/offers",
       .create_folder "vinted/offers/65f0c0ffee0123456789abcd",
       .create_folder "vinted/offers/65f0c0ffee0123456789abcd",
       .rename "tmp1" "vinted/offers/65f0c0ffee0123456789abcd/tmp1",
       .rename "tmp2" "vinted/offers/65f0c0ffee0123456789abcd/tmp2"] ∧
    (updateOffer sampleUser "65f0c0ffee0123456789abcd" []
        (.files ⟨none, some (.many [sampleFile "b", sampleFile "c"])⟩)
        (sampleWorld (some sampleOfferWithPictures) none)).1.status = 200 ∧
    (updateOffer sampleUser "65f0c0ffee0123456789abcd" []
        (.files ⟨none, some (.one (sampleFile "b"))⟩)
        (sampleWorld (some sampleOfferWithPictures) none)).2.filter Op.isAssetOp =
      [.upload "data:image/png;base64,AAAA", .sub_folders "vinted/offers",
       .create_folder "vinted/offers/65f0c0ffee0123456789abcd",
       .rename "tmp1" "vinted/offers/65f0c0ffee0123456789abcd/tmp1"] ∧
    (updateOffer sampleUser "65f0c0ffee0123456789abcd" []
        (.files ⟨some (sampleFile "a"), none⟩)
        (sampleWorld (some sampleOfferWithPictures) none)).2.filter Op.isAssetOp =
      [.destroy "vinted/offers/65f0c0ffee0123456789abcd/img",
       .upload "data:image/png;base64,AAAA", .sub_folders "vinted/offers",
       .create_folder "vinted/offers/65f0c0ffee0123456789abcd",
       .rename "tmp2" "vinted/offers/65f0c0ffee0123456789abcd/tmp2"] := by
  decide

/-- The number of offers skipped for a page and a limit that read as numbers: the product
`(page - 1) * limit` of line 181. -/
theorem skip_of_numbers (page limit : JSVal) (p l : ℚ) (hp : toNumber page = .fin p)
    (hl : toNumber limit = .fin l) :
    jsMul (.num (jsSub page (.num (.fin 1)))) limit = .fin ((p - 1) * l) := by
  have hsub : jsSub page (.num (.fin 1)) = .fin (p - 1) := by
    unfold jsSub
    rw [hp]
    show JSNum.fin (ratSub p 1) = _
    rw [ratSub_eq]
  unfold jsMul
  rw [hsub, hl]
  show JSNum.fin (ratMul (p - 1) l) = _
  rw [ratMul_eq]

/-- C14 (the code departs from the claim). For the query `page=2000&limit=10`, above the
maximum page, the store is asked to skip 19990 offers, and for `limit=10` without a page
the number to skip is `NaN`: line 181 computes `(page - 1) * limit` before lines 199-201
replace the page by 1. For `page=3&limit=10` the number skipped is 20. -/
theorem search_skip_computed_before_page_default :
    (getOffers [("page", .str "2000"), ("limit", .str "10")]
      (sampleWorld (some sampleOffer) none)).2 =
      [.offerFind { product_name := .undefined, product_description := .undefined,
                    gte := .num (.fin 0), lte := .num (.fin 100000), sort := "desc",
                    skip := .fin 19990, limit := .str "10" }] ∧
    (getOffers [("limit", .str "10")] (sampleWorld (some sampleOffer) none)).2 =
      [.offerFind { product_name := .undefined, product_description := .undefined,
                    gte := .num (.fin 0), lte := .num (.fin 100000), sort := "desc",
                    skip := .nan, limit := .str "10" }] ∧
    (getOffers [("page", .str "3"), ("limit", .str "10")]
      (sampleWorld (some sampleOffer) none)).2 =
      [.offerFind { product_name := .undefined, product_description := .undefined,
                    gte := .num (.fin 0), lte := .num (.fin 100000), sort := "desc",
                    skip := .fin 20, limit := .str "10" }] := by
  decide

end Vinted
